import Mathlib

/-!
Verification development for the wallet-system repository: an event-sourced
wallet service with a transfer saga, an idempotency layer, and a fraud
risk-profile service.  The definitions below are shallow embeddings of the
TypeScript sources: pure methods become Lean functions, thrown exceptions
become `Except`/paired error options, the relational event store becomes a
list of rows with the UNIQUE(aggregate_id, version) constraint checked
explicitly, and Redis becomes an association list with explicit expiry
times.  JavaScript `number` amounts are modelled as `ℚ`; `Date` values are
modelled by their millisecond timestamp (`Int`), and the ISO-8601 string
produced by `Date.prototype.toISOString` is modelled by its seven numeric
components (year, month, day, hour, minute, second, millisecond), which
determine, and are determined by, that string.
-/

set_option maxHeartbeats 1000000

namespace WalletProof

/-!
## Calendar model for `Date.toISOString` / `new Date(isoString)`

ECMAScript dates are an integer count of milliseconds since the Unix epoch
on the proleptic Gregorian calendar.  `toISOString` converts the day number
to a year/month/day triple (the algorithm below is the standard civil-
from-days conversion, equivalent to the ECMAScript YearFromTime /
MonthFromTime / DateFromTime specification functions), and parsing the ISO
string back performs the inverse days-from-civil conversion.  We prove the
round trip exactly: this is what makes `deserializeEvent ∘ serializeEvent`
the identity on event timestamps.
-/

/-- Day-of-era helper: the year-of-era recovered from a day-of-era count,
as computed by the civil-from-days algorithm (0 ≤ doe ≤ 146096). -/
def nYoe (doe : Nat) : Nat := (doe - doe / 1460 + doe / 36524 - doe / 146096) / 365

/-- First day-of-era of a given year-of-era. -/
def dayStart (y : Nat) : Nat := 365 * y + y / 4 - y / 100

/-- Boundary check for one year-of-era: the year recovered at its first day
is the year itself, and the day before its first day belongs to the
previous year. -/
def boundOK (y : Nat) : Bool :=
  decide (nYoe (dayStart y) = y) && (decide (y = 0) || decide (nYoe (dayStart y - 1) = y - 1))

/-- Fueled divide-and-conquer range checker for `boundOK` (binary splitting
keeps kernel reduction depth logarithmic). -/
def checkB : Nat → Nat → Nat → Bool
  | 0, _, _ => false
  | fuel + 1, lo, len =>
    if len = 0 then true
    else if len = 1 then boundOK lo
    else checkB fuel lo (len / 2) && checkB fuel (lo + len / 2) (len - len / 2)

theorem checkB_sound (fuel lo len : Nat) (h : checkB fuel lo len = true) :
    ∀ i, i < len → boundOK (lo + i) = true := by
  induction fuel generalizing lo len with
  | zero => simp [checkB] at h
  | succ fuel ih =>
    rw [checkB] at h
    intro i hi
    by_cases h0 : len = 0
    · omega
    · by_cases h1 : len = 1
      · have : i = 0 := by omega
        subst this
        simpa [h0, h1] using h
      · simp only [h0, h1, if_false] at h
        rw [Bool.and_eq_true] at h
        rcases Nat.lt_or_ge i (len / 2) with hlt | hge
        · exact ih lo (len / 2) h.1 i hlt
        · have := ih (lo + len / 2) (len - len / 2) h.2 (i - len / 2) (by omega)
          have harr : lo + len / 2 + (i - len / 2) = lo + i := by omega
          rwa [harr] at this

theorem checkB_all : checkB 10 0 400 = true := by decide

theorem nYoe_last : nYoe 146096 = 399 := by decide

theorem nYoe_step (doe : Nat) : nYoe doe ≤ nYoe (doe + 1) ∧ nYoe (doe + 1) ≤ nYoe doe + 1 := by
  unfold nYoe
  omega

theorem nYoe_mono : ∀ a b : Nat, a ≤ b → nYoe a ≤ nYoe b := by
  intro a b hab
  induction b with
  | zero => simp_all
  | succ b ih =>
    rcases Nat.lt_or_ge a (b + 1) with hlt | hge
    · exact Nat.le_trans (ih (by omega)) (nYoe_step b).1
    · have : a = b + 1 := by omega
      subst this; exact Nat.le_refl _

theorem boundOK_spec (y : Nat) (hy : y ≤ 399) :
    nYoe (dayStart y) = y ∧ (1 ≤ y → nYoe (dayStart y - 1) = y - 1) := by
  have h := checkB_sound 10 0 400 checkB_all y (by omega)
  simp only [Nat.zero_add] at h
  unfold boundOK at h
  rw [Bool.and_eq_true, Bool.or_eq_true, decide_eq_true_eq, decide_eq_true_eq,
    decide_eq_true_eq] at h
  refine ⟨h.1, fun h1 => ?_⟩
  rcases h.2 with h2 | h2
  · omega
  · exact h2

theorem sandwich : ∀ doe : Nat, doe ≤ 146096 →
    nYoe doe ≤ 399 ∧ dayStart (nYoe doe) ≤ doe ∧ doe ≤ dayStart (nYoe doe) + 365 := by
  intro doe
  induction doe with
  | zero => intro _; refine ⟨by decide, by decide, by decide⟩
  | succ doe ih =>
    intro hle
    obtain ⟨hy399, hlo, hhi⟩ := ih (by omega)
    obtain ⟨hstep1, hstep2⟩ := nYoe_step doe
    have hlast := nYoe_last
    have hmax : nYoe (doe + 1) ≤ 399 := by
      have := nYoe_mono (doe + 1) 146096 (by omega)
      omega
    have hgap : dayStart (nYoe doe) + 365 ≤ dayStart (nYoe doe + 1) ∧
        dayStart (nYoe doe + 1) ≤ dayStart (nYoe doe) + 366 := by
      unfold dayStart; omega
    rcases Nat.lt_or_ge (nYoe (doe + 1)) (nYoe doe + 1) with hsame | hjump
    · have hsame : nYoe (doe + 1) = nYoe doe := by omega
      rw [hsame]
      refine ⟨by omega, by omega, ?_⟩
      by_contra hcon
      push_neg at hcon
      have hdoe_eq : doe = dayStart (nYoe doe) + 365 := by omega
      have hy398 : nYoe doe ≤ 398 := by
        by_contra h399
        have h399 : nYoe doe = 399 := by omega
        have hds : dayStart 399 = 145731 := by decide
        rw [h399] at hlo hhi hdoe_eq
        omega
      have hbound := boundOK_spec (nYoe doe + 1) (by omega)
      have h1 := hbound.1
      rcases Nat.lt_or_ge (dayStart (nYoe doe + 1)) (dayStart (nYoe doe) + 366) with hc | hc
      · have he : dayStart (nYoe doe + 1) = doe := by omega
        rw [he] at h1
        omega
      · have he : dayStart (nYoe doe + 1) = doe + 1 := by omega
        rw [he] at h1
        omega
    · have hjump : nYoe (doe + 1) = nYoe doe + 1 := by omega
      rw [hjump]
      have hbound := boundOK_spec (nYoe doe + 1) (by omega)
      refine ⟨by omega, ?_, by omega⟩
      by_contra hcon
      push_neg at hcon
      have h2 := hbound.2 (by omega)
      have hmono := nYoe_mono (doe + 1) (dayStart (nYoe doe + 1) - 1) (by omega)
      omega

theorem sandwichZ (D : Int) (h0 : 0 ≤ D) (h1 : D ≤ 146096) :
    0 ≤ (D - D / 1460 + D / 36524 - D / 146096) / 365 ∧
    (D - D / 1460 + D / 36524 - D / 146096) / 365 ≤ 399 ∧
    365 * ((D - D / 1460 + D / 36524 - D / 146096) / 365)
      + ((D - D / 1460 + D / 36524 - D / 146096) / 365) / 4
      - ((D - D / 1460 + D / 36524 - D / 146096) / 365) / 100 ≤ D ∧
    D ≤ 365 * ((D - D / 1460 + D / 36524 - D / 146096) / 365)
      + ((D - D / 1460 + D / 36524 - D / 146096) / 365) / 4
      - ((D - D / 1460 + D / 36524 - D / 146096) / 365) / 100 + 365 := by
  obtain ⟨hA, hB, hC⟩ := sandwich D.toNat (by omega)
  simp only [nYoe, dayStart] at hA hB hC
  have hsub1 : D.toNat / 1460 ≤ D.toNat := Nat.div_le_self _ _
  have hsub2 : D.toNat / 146096 ≤ D.toNat - D.toNat / 1460 + D.toNat / 36524 := by omega
  have hsub3 : ((D.toNat - D.toNat / 1460 + D.toNat / 36524 - D.toNat / 146096) / 365) / 100 ≤
      365 * ((D.toNat - D.toNat / 1460 + D.toNat / 36524 - D.toNat / 146096) / 365) +
        ((D.toNat - D.toNat / 1460 + D.toNat / 36524 - D.toNat / 146096) / 365) / 4 := by
    omega
  zify [hsub1, hsub2, hsub3] at hA hB hC
  rw [Int.toNat_of_nonneg h0] at hA hB hC
  refine ⟨by omega, hA, hB, hC⟩

/-- Days-from-civil conversion (Gregorian calendar to epoch day count),
with floor division throughout; this inverts `civilFromDays`. -/
def daysFromCivil (y m d : Int) : Int :=
  let y2 := if m ≤ 2 then y - 1 else y
  let era := y2 / 400
  let yoe := y2 - era * 400
  let mp := if m > 2 then m - 3 else m + 9
  let doy := (153 * mp + 2) / 5 + d - 1
  let doe := yoe * 365 + yoe / 4 - yoe / 100 + doy
  era * 146097 + doe - 719468

/-- Civil-from-days conversion (epoch day count to Gregorian
year/month/day), with floor division throughout. -/
def civilFromDays (z : Int) : Int × Int × Int :=
  let z2 := z + 719468
  let era := z2 / 146097
  let doe := z2 - era * 146097
  let yoe := (doe - doe / 1460 + doe / 36524 - doe / 146096) / 365
  let y := yoe + era * 400
  let doy := doe - (365 * yoe + yoe / 4 - yoe / 100)
  let mp := (5 * doy + 2) / 153
  let d := doy - (153 * mp + 2) / 5 + 1
  let m := if mp < 10 then mp + 3 else mp - 9
  (if m ≤ 2 then y + 1 else y, m, d)

theorem civil_roundtrip (z : Int) :
    daysFromCivil (civilFromDays z).1 (civilFromDays z).2.1 (civilFromDays z).2.2 = z := by
  unfold civilFromDays daysFromCivil
  simp only []
  set era := (z + 719468) / 146097 with hera
  set D := z + 719468 - era * 146097 with hDdef
  set yoe := (D - D / 1460 + D / 36524 - D / 146096) / 365 with hyoe
  set doy := D - (365 * yoe + yoe / 4 - yoe / 100) with hdoy
  set mp := (5 * doy + 2) / 153 with hmp
  have hD0 : 0 ≤ D := by rw [hDdef, hera]; omega
  have hD1 : D ≤ 146096 := by rw [hDdef, hera]; omega
  have hs := sandwichZ D hD0 hD1
  rw [← hyoe] at hs
  obtain ⟨h1, h2, h3, h4⟩ := hs
  have hdoyb : 0 ≤ doy ∧ doy ≤ 365 := by rw [hdoy]; omega
  have hmpb : 0 ≤ mp ∧ mp ≤ 11 := by rw [hmp]; omega
  by_cases hc : mp < 10
  · rw [if_pos hc]
    have hm3 : ¬(mp + 3 ≤ 2) := by omega
    rw [if_neg hm3, if_neg hm3]
    have hgt : mp + 3 > 2 := by omega
    rw [if_pos hgt]
    have hera2 : (yoe + era * 400) / 400 = era := by omega
    rw [hera2]
    have hy2 : yoe + era * 400 - era * 400 = yoe := by ring
    rw [hy2]
    have hmp2 : mp + 3 - 3 = mp := by ring
    rw [hmp2]
    omega
  · rw [if_neg hc]
    have hm3 : mp - 9 ≤ 2 := by omega
    rw [if_pos hm3, if_pos hm3]
    have hgt : ¬(mp - 9 > 2) := by omega
    rw [if_neg hgt]
    have hp1 : yoe + era * 400 + 1 - 1 = yoe + era * 400 := by ring
    rw [hp1]
    have hera2 : (yoe + era * 400) / 400 = era := by omega
    rw [hera2]
    have hy2 : yoe + era * 400 - era * 400 = yoe := by ring
    rw [hy2]
    have hmp2 : mp - 9 + 9 = mp := by ring
    rw [hmp2]
    omega

/-- The numeric content of the ISO-8601 string `YYYY-MM-DDTHH:mm:ss.sssZ`
produced by `Date.prototype.toISOString`: the string is a fixed, injective
rendering of these seven components. -/
structure IsoTimestamp where
  year : Int
  month : Int
  day : Int
  hour : Int
  minute : Int
  second : Int
  ms : Int
deriving DecidableEq

/-- Model of `Date.prototype.toISOString` on a millisecond timestamp. -/
def toISOString (t : Int) : IsoTimestamp :=
  let days := t / 86400000
  let msOfDay := t % 86400000
  let c := civilFromDays days
  { year := c.1, month := c.2.1, day := c.2.2
    hour := msOfDay / 3600000
    minute := msOfDay % 3600000 / 60000
    second := msOfDay % 60000 / 1000
    ms := msOfDay % 1000 }

/-- Model of `new Date(isoString).getTime()` on an ISO-8601 timestamp
string (ECMAScript Date Time String Format parsing). -/
def parseISOString (it : IsoTimestamp) : Int :=
  daysFromCivil it.year it.month it.day * 86400000
    + it.hour * 3600000 + it.minute * 60000 + it.second * 1000 + it.ms

/-- `new Date(d.toISOString()).getTime() = d.getTime()`: ISO-8601 strings
round-trip JavaScript dates exactly (millisecond precision). -/
theorem iso_roundtrip (t : Int) : parseISOString (toISOString t) = t := by
  unfold parseISOString toISOString
  simp only []
  have hc := civil_roundtrip (t / 86400000)
  rw [hc]
  omega

/-!
## Domain events (libs/shared/src/events/wallet.events.ts)

`MoneyDepositedEvent`, `MoneyWithdrawnEvent` and `MoneyTransferredEvent` are
plain classes whose fields are exactly the constructor arguments below;
`timestamp` is a JavaScript `Date` modelled by its millisecond value.
-/

/-- The three wallet event classes. -/
inductive WEvent where
  | deposited (walletId : String) (amount : ℚ) (timestamp : Int) (transactionId : String)
  | withdrawn (walletId : String) (amount : ℚ) (timestamp : Int) (transactionId : String)
  | transferred (fromWalletId toWalletId : String) (amount : ℚ) (timestamp : Int)
      (transactionId : String)
deriving DecidableEq

/-- `event.constructor.name`, used by the event store as the stored
`eventType`. -/
def WEvent.ctorName : WEvent → String
  | .deposited .. => "MoneyDepositedEvent"
  | .withdrawn .. => "MoneyWithdrawnEvent"
  | .transferred .. => "MoneyTransferredEvent"

/-- `event.transactionId`. -/
def WEvent.transactionId : WEvent → String
  | .deposited _ _ _ tx => tx
  | .withdrawn _ _ _ tx => tx
  | .transferred _ _ _ _ tx => tx

/-- `event.amount`. -/
def WEvent.amount : WEvent → ℚ
  | .deposited _ a _ _ => a
  | .withdrawn _ a _ _ => a
  | .transferred _ _ a _ _ => a

/-- `event.timestamp`. -/
def WEvent.timestamp : WEvent → Int
  | .deposited _ _ t _ => t
  | .withdrawn _ _ t _ => t
  | .transferred _ _ _ t _ => t

/-!
## Errors

The TypeScript sources throw plain `Error(message)` values; the constructor
below classifies each throw site, and `message` recovers the thrown string.
`conflict` stands for the database unique-constraint violation surfaced by
the event store; `infra` stands for an injected transient infrastructure
failure of a repository save (per the failure semantics, a failed save
appends nothing).
-/

/-- Message of the insufficient-funds error thrown by the aggregate. -/
def insufficientMsg (balance amount : ℚ) : String :=
  "Insufficient funds. Current balance: " ++ toString balance ++
    ", requested: " ++ toString amount

/-- Classified errors of the embedded system. -/
inductive Err where
  | invalidAmount (message : String)
  | insufficientFunds (message : String)
  | conflict (message : String)
  | infra (message : String)
deriving DecidableEq

/-- `error.message`. -/
def Err.message : Err → String
  | .invalidAmount m => m
  | .insufficientFunds m => m
  | .conflict m => m
  | .infra m => m

/-!
## Wallet aggregate (command-service aggregates/wallet.aggregate.ts)

The aggregate mutates `balance`/`version` in place and records each new
event through `AggregateRoot.apply` (the `uncommitted` list below).  A
method that throws leaves the object untouched, because every throw
precedes every mutation; we embed each method in state-exception form:
the result pairs the (possibly updated) aggregate with the thrown error,
and on a throw the aggregate component is the unchanged receiver.
-/

/-- In-memory state of `WalletAggregate`. -/
structure WalletAggregate where
  id : String
  balance : ℚ
  version : Nat
  uncommitted : List WEvent
deriving DecidableEq

/-- `new WalletAggregate(id)`: balance 0, version 0, no uncommitted
events. -/
def newWallet (id : String) : WalletAggregate :=
  { id := id, balance := 0, version := 0, uncommitted := [] }

/-- `deposit(amount)`; `timestamp`/`transactionId` stand for the
`new Date()` / `uuid()` generated inside the method. -/
def WalletAggregate.deposit (w : WalletAggregate) (amount : ℚ) (timestamp : Int)
    (transactionId : String) : WalletAggregate × Option Err :=
  if amount ≤ 0 then
    (w, some (.invalidAmount ("Deposit amount must be positive")))
  else
    let event := WEvent.deposited w.id amount timestamp transactionId
    ({ w with balance := w.balance + amount,
              version := w.version + 1,
              uncommitted := w.uncommitted ++ [event] }, none)

/-- `withdraw(amount)`. -/
def WalletAggregate.withdraw (w : WalletAggregate) (amount : ℚ) (timestamp : Int)
    (transactionId : String) : WalletAggregate × Option Err :=
  if amount ≤ 0 then
    (w, some (.invalidAmount ("Withdrawal amount must be positive")))
  else if w.balance < amount then
    (w, some (.insufficientFunds (insufficientMsg w.balance amount)))
  else
    let event := WEvent.withdrawn w.id amount timestamp transactionId
    ({ w with balance := w.balance - amount,
              version := w.version + 1,
              uncommitted := w.uncommitted ++ [event] }, none)

/-- `transferOut(toWalletId, amount)`. -/
def WalletAggregate.transferOut (w : WalletAggregate) (toWalletId : String) (amount : ℚ)
    (timestamp : Int) (transactionId : String) : WalletAggregate × Option Err :=
  if amount ≤ 0 then
    (w, some (.invalidAmount ("Transfer amount must be positive")))
  else if w.balance < amount then
    (w, some (.insufficientFunds (insufficientMsg w.balance amount)))
  else
    let event := WEvent.transferred w.id toWalletId amount timestamp transactionId
    ({ w with balance := w.balance - amount,
              version := w.version + 1,
              uncommitted := w.uncommitted ++ [event] }, none)

/-- `applyMoneyDeposited`: adds the amount (the applier does not inspect
the event wallet id). -/
def WalletAggregate.applyMoneyDeposited (w : WalletAggregate) (amount : ℚ) : WalletAggregate :=
  { w with balance := w.balance + amount }

/-- `applyMoneyWithdrawn`. -/
def WalletAggregate.applyMoneyWithdrawn (w : WalletAggregate) (amount : ℚ) : WalletAggregate :=
  { w with balance := w.balance - amount }

/-- `applyMoneyTransferred`: debits when this wallet is the source, credits
when it is the destination. -/
def WalletAggregate.applyMoneyTransferred (w : WalletAggregate) (fromWalletId toWalletId : String)
    (amount : ℚ) : WalletAggregate :=
  if fromWalletId = w.id then { w with balance := w.balance - amount }
  else if toWalletId = w.id then { w with balance := w.balance + amount }
  else w

/-- `replayEvent(event)`: dispatch on the event class, mutating balance
only (no version change, nothing recorded as uncommitted). -/
def WalletAggregate.replayEvent (w : WalletAggregate) : WEvent → WalletAggregate
  | .deposited _ a _ _ => w.applyMoneyDeposited a
  | .withdrawn _ a _ _ => w.applyMoneyWithdrawn a
  | .transferred f t a _ _ => w.applyMoneyTransferred f t a

/-!
## Event store (libs/shared/src/event-store/event-store.service.ts)

Rows of the `event_store` table; `init.sql` declares
`UNIQUE(aggregate_id, version)`, and TypeORM `save` on an entity array is
transactional, so an append is all-or-nothing.
-/

/-- `serializeEvent` output: the enumerable fields of the event object,
with `Date` fields converted by `toISOString()`.  Absent keys are `none`
(a deposited/withdrawn event has no `fromWalletId`/`toWalletId`, and a
transferred event has no `walletId`). -/
structure EventData where
  walletId : Option String
  fromWalletId : Option String
  toWalletId : Option String
  amount : Option ℚ
  timestamp : Option IsoTimestamp
  transactionId : Option String
deriving DecidableEq

/-- `EventStoreService.serializeEvent`. -/
def serializeEvent : WEvent → EventData
  | .deposited w a t tx =>
    { walletId := some w, fromWalletId := none, toWalletId := none,
      amount := some a, timestamp := some (toISOString t), transactionId := some tx }
  | .withdrawn w a t tx =>
    { walletId := some w, fromWalletId := none, toWalletId := none,
      amount := some a, timestamp := some (toISOString t), transactionId := some tx }
  | .transferred f t2 a t tx =>
    { walletId := none, fromWalletId := some f, toWalletId := some t2,
      amount := some a, timestamp := some (toISOString t), transactionId := some tx }

/-- A row of the `event_store` table. -/
structure StoredEvent where
  aggregateId : String
  aggregateType : String
  eventType : String
  eventData : EventData
  version : Nat
  transactionId : String
deriving DecidableEq

/-- The entity array built inside `saveEvents`: the running `version`
counter starts at `expectedVersion` and is pre-incremented for each event
in list order. -/
def mkEntities (aggregateId aggregateType : String) (events : List WEvent)
    (version : Nat) : List StoredEvent :=
  match events with
  | [] => []
  | e :: rest =>
    { aggregateId := aggregateId, aggregateType := aggregateType,
      eventType := e.ctorName, eventData := serializeEvent e,
      version := version + 1, transactionId := e.transactionId }
      :: mkEntities aggregateId aggregateType rest (version + 1)

/-- `EventStoreService.saveEvents`: build the entities, then insert them in
one transaction; the `UNIQUE(aggregate_id, version)` constraint rejects the
whole batch when any row collides with an existing row. -/
def saveEvents (store : List StoredEvent) (aggregateId aggregateType : String)
    (events : List WEvent) (expectedVersion : Nat) : Except Err (List StoredEvent) :=
  let entities := mkEntities aggregateId aggregateType events expectedVersion
  if entities.any (fun ent =>
      store.any (fun s => s.aggregateId == ent.aggregateId && s.version == ent.version)) then
    .error (.conflict ("duplicate key value violates unique constraint"))
  else
    .ok (store ++ entities)

/-- `EventStoreService.getEvents`: rows of the aggregate ordered by
version ascending. -/
def getEvents (store : List StoredEvent) (aggregateId : String) : List StoredEvent :=
  List.insertionSort (fun a b => a.version ≤ b.version)
    (store.filter (fun s => s.aggregateId == aggregateId))

/-!
## Wallet repository (command-service repositories/wallet.repository.ts)
-/

/-- `WalletRepository.deserializeEvent`: reconstruct the event class from
the stored type tag; unknown tags yield `null`. -/
def deserializeEvent (eventType : String) (d : EventData) : Option WEvent :=
  match eventType with
  | "MoneyDepositedEvent" =>
    match d.walletId, d.amount, d.timestamp, d.transactionId with
    | some w, some a, some t, some tx => some (.deposited w a (parseISOString t) tx)
    | _, _, _, _ => none
  | "MoneyWithdrawnEvent" =>
    match d.walletId, d.amount, d.timestamp, d.transactionId with
    | some w, some a, some t, some tx => some (.withdrawn w a (parseISOString t) tx)
    | _, _, _, _ => none
  | "MoneyTransferredEvent" =>
    match d.fromWalletId, d.toWalletId, d.amount, d.timestamp, d.transactionId with
    | some f, some t2, some a, some t, some tx =>
      some (.transferred f t2 a (parseISOString t) tx)
    | _, _, _, _, _ => none
  | _ => none

/-- The replay loop of `findById`: deserialize each stored row and replay
it; rows that deserialize to `null` are skipped. -/
def replayStored (w : WalletAggregate) (rows : List StoredEvent) : WalletAggregate :=
  rows.foldl (fun acc se =>
    match deserializeEvent se.eventType se.eventData with
    | some e => acc.replayEvent e
    | none => acc) w

/-- `WalletRepository.findById`: new aggregate, replay all stored events,
then `setVersion(events.length)`. -/
def findById (store : List StoredEvent) (walletId : String) : WalletAggregate :=
  let events := getEvents store walletId
  let w := replayStored (newWallet walletId) events
  { w with version := events.length }

/-- `WalletRepository.save`: nothing to do without uncommitted events;
otherwise append them with expected version
`wallet.getVersion() - uncommittedEvents.length`. -/
def repoSave (store : List StoredEvent) (w : WalletAggregate) : Except Err (List StoredEvent) :=
  if w.uncommitted.isEmpty then .ok store
  else saveEvents store w.id ("WalletAggregate") w.uncommitted (w.version - w.uncommitted.length)

/-!
## Transfer saga (command-service sagas/)

`TransferSagaService.execute` orchestrates debit, credit and compensation
over the wallet repository, a saga table and an event publisher.  The
world record collects the three.  Each repository save may fail for
transient infrastructure reasons independent of the data; the `Faults`
record injects such failures (a failed save appends nothing, per the
store failure semantics).  The `uuid()` / `new Date()` values generated
inside the service are passed as parameters.
-/

/-- `TransferSagaStatus` enum. -/
inductive TransferSagaStatus where
  | INITIATED
  | SOURCE_DEBITED
  | COMPLETED
  | COMPENSATING
  | FAILED
deriving DecidableEq

/-- A row of the `transfer_saga` table. -/
structure SagaRow where
  id : String
  fromWalletId : String
  toWalletId : String
  amount : ℚ
  status : TransferSagaStatus
  debitTransactionId : Option String
  creditTransactionId : Option String
  compensationTransactionId : Option String
  errorMessage : Option String
deriving DecidableEq

/-- `TransferSagaRepository.create`: insert the row in `INITIATED`. -/
def sagaCreate (sagas : List SagaRow) (id fromWalletId toWalletId : String)
    (amount : ℚ) : List SagaRow :=
  sagas ++ [{ id := id, fromWalletId := fromWalletId, toWalletId := toWalletId,
              amount := amount, status := .INITIATED, debitTransactionId := none,
              creditTransactionId := none, compensationTransactionId := none,
              errorMessage := none }]

/-- `TransferSagaRepository.updateStatus` and its wrappers: update the row
with the given id. -/
def sagaUpdate (sagas : List SagaRow) (id : String) (f : SagaRow → SagaRow) : List SagaRow :=
  sagas.map (fun r => if r.id = id then f r else r)

/-- `setSourceDebited(id, debitTransactionId)`. -/
def sagaSetSourceDebited (sagas : List SagaRow) (id tx : String) : List SagaRow :=
  sagaUpdate sagas id (fun r => { r with status := .SOURCE_DEBITED,
                                         debitTransactionId := some tx })

/-- `setCompleted(id, creditTransactionId)`. -/
def sagaSetCompleted (sagas : List SagaRow) (id tx : String) : List SagaRow :=
  sagaUpdate sagas id (fun r => { r with status := .COMPLETED,
                                         creditTransactionId := some tx })

/-- `setCompensating(id, errorMessage)`. -/
def sagaSetCompensating (sagas : List SagaRow) (id msg : String) : List SagaRow :=
  sagaUpdate sagas id (fun r => { r with status := .COMPENSATING,
                                         errorMessage := some msg })

/-- `setFailed(id, compensationTransactionId)`. -/
def sagaSetFailed (sagas : List SagaRow) (id tx : String) : List SagaRow :=
  sagaUpdate sagas id (fun r => { r with status := .FAILED,
                                         compensationTransactionId := some tx })

/-- `updateStatus(id, FAILED, errorMessage)` used on debit failure. -/
def sagaSetFailedErr (sagas : List SagaRow) (id msg : String) : List SagaRow :=
  sagaUpdate sagas id (fun r => { r with status := .FAILED, errorMessage := some msg })

/-- `updateStatus(id, COMPENSATING, errorMessage)` used on compensation
failure. -/
def sagaSetCompensatingErr (sagas : List SagaRow) (id msg : String) : List SagaRow :=
  sagaUpdate sagas id (fun r => { r with status := .COMPENSATING, errorMessage := some msg })

/-- Messages published through `EventPublisherService` (routing key plus
payload fields). -/
inductive PubEvent where
  | transferInitiated (sagaId fromWalletId toWalletId : String) (amount : ℚ) (timestamp : Int)
  | sourceWalletDebited (sagaId walletId : String) (amount : ℚ) (transactionId : String)
      (timestamp : Int) (balanceAfter : ℚ)
  | destinationWalletCredited (sagaId walletId : String) (amount : ℚ) (transactionId : String)
      (timestamp : Int) (balanceAfter : ℚ)
  | transferCompleted (sagaId fromWalletId toWalletId : String) (amount : ℚ) (timestamp : Int)
      (fromBalanceAfter toBalanceAfter : ℚ)
  | compensationInitiated (sagaId walletId : String) (amount : ℚ) (reason : String)
      (timestamp : Int)
  | sourceWalletRefunded (sagaId walletId : String) (amount : ℚ) (transactionId : String)
      (timestamp : Int) (balanceAfter : ℚ)
  | transferFailed (sagaId fromWalletId toWalletId : String) (amount : ℚ) (reason : String)
      (timestamp : Int)
deriving DecidableEq

/-- `TransferResult` returned by `TransferSagaService.execute`. -/
structure TransferResult where
  success : Bool
  sagaId : String
  message : String
  fromBalance : Option ℚ
  toBalance : Option ℚ
  error : Option String
deriving DecidableEq

/-- Injected transient failures of the three repository saves inside a
transfer saga. -/
structure Faults where
  debitSave : Bool
  creditSave : Bool
  refundSave : Bool
deriving DecidableEq

/-- The state the saga service acts on: the event log, the saga table and
the list of published messages (in publish order). -/
structure SagaWorld where
  store : List StoredEvent
  sagas : List SagaRow
  published : List PubEvent
deriving DecidableEq

/-- `TransferSagaService.debitSourceWallet`: load, `withdraw`, save, then
publish `SourceWalletDebited`; any throw propagates (and, the save being
all-or-nothing, leaves the store unchanged).  Returns the new store, the
published message, the debit transaction id and the post-debit balance. -/
def debitSourceWallet (store : List StoredEvent) (sagaId walletId : String) (amount : ℚ)
    (fault : Bool) (tx : String) (ts : Int) :
    Except Err (List StoredEvent × PubEvent × String × ℚ) :=
  let wallet := findById store walletId
  match wallet.withdraw amount ts tx with
  | (_, some e) => .error e
  | (w2, none) =>
    if fault then .error (.infra ("database connection error"))
    else
      match repoSave store w2 with
      | .error e => .error e
      | .ok store2 =>
        .ok (store2, .sourceWalletDebited sagaId walletId amount tx ts w2.balance,
             tx, w2.balance)

/-- `TransferSagaService.creditDestinationWallet`: load, `deposit`, save,
then publish `DestinationWalletCredited`. -/
def creditDestinationWallet (store : List StoredEvent) (sagaId walletId : String) (amount : ℚ)
    (fault : Bool) (tx : String) (ts : Int) :
    Except Err (List StoredEvent × PubEvent × String × ℚ) :=
  let wallet := findById store walletId
  match wallet.deposit amount ts tx with
  | (_, some e) => .error e
  | (w2, none) =>
    if fault then .error (.infra ("database connection error"))
    else
      match repoSave store w2 with
      | .error e => .error e
      | .ok store2 =>
        .ok (store2, .destinationWalletCredited sagaId walletId amount tx ts w2.balance,
             tx, w2.balance)

/-- `TransferSagaService.compensateSourceWallet`: deposit the amount back
(the refund), then publish `SourceWalletRefunded`. -/
def compensateSourceWallet (store : List StoredEvent) (sagaId walletId : String) (amount : ℚ)
    (fault : Bool) (tx : String) (ts : Int) :
    Except Err (List StoredEvent × PubEvent × String × ℚ) :=
  let wallet := findById store walletId
  match wallet.deposit amount ts tx with
  | (_, some e) => .error e
  | (w2, none) =>
    if fault then .error (.infra ("database connection error"))
    else
      match repoSave store w2 with
      | .error e => .error e
      | .ok store2 =>
        .ok (store2, .sourceWalletRefunded sagaId walletId amount tx ts w2.balance,
             tx, w2.balance)

/-- Success message of a completed transfer. -/
def transferredMsg (amount : ℚ) (fromWalletId toWalletId : String) : String :=
  "Transferred " ++ toString amount ++ " from wallet " ++ fromWalletId ++
    " to wallet " ++ toWalletId

/-- `TransferSagaService.execute`: create the saga and publish
`TransferInitiated`; debit the source (on failure set `FAILED`, publish
`TransferFailed`, return failure); credit the destination (on success set
`COMPLETED`, publish `TransferCompleted`, return success); on credit
failure set `COMPENSATING`, publish `CompensationInitiated`, refund the
source by a deposit; on refund success set `FAILED`, publish
`SourceWalletRefunded` and `TransferFailed` and return failure; on refund
failure leave the saga `COMPENSATING` and return the CRITICAL result. -/
def sagaExecute (w : SagaWorld) (fromWalletId toWalletId : String) (amount : ℚ)
    (sagaId : String) (faults : Faults) (txDebit txCredit txRefund : String) (now : Int) :
    SagaWorld × TransferResult :=
  let w1 : SagaWorld :=
    { w with sagas := sagaCreate w.sagas sagaId fromWalletId toWalletId amount,
             published := w.published ++
               [.transferInitiated sagaId fromWalletId toWalletId amount now] }
  match debitSourceWallet w1.store sagaId fromWalletId amount faults.debitSave txDebit now with
  | .error e =>
    ({ w1 with sagas := sagaSetFailedErr w1.sagas sagaId e.message,
               published := w1.published ++
                 [.transferFailed sagaId fromWalletId toWalletId amount e.message now] },
     { success := false, sagaId := sagaId,
       message := "Transfer failed: Unable to debit source wallet",
       fromBalance := none, toBalance := none, error := some e.message })
  | .ok (store1, pubDebited, debitTransactionId, fromBalance) =>
    let w2 : SagaWorld :=
      { w1 with store := store1, published := w1.published ++ [pubDebited],
                sagas := sagaSetSourceDebited w1.sagas sagaId debitTransactionId }
    match creditDestinationWallet w2.store sagaId toWalletId amount faults.creditSave
        txCredit now with
    | .ok (store2, pubCredited, creditTransactionId, toBalance) =>
      ({ w2 with store := store2,
                 sagas := sagaSetCompleted w2.sagas sagaId creditTransactionId,
                 published := w2.published ++
                   [pubCredited,
                    .transferCompleted sagaId fromWalletId toWalletId amount now
                      fromBalance toBalance] },
       { success := true, sagaId := sagaId,
         message := transferredMsg amount fromWalletId toWalletId,
         fromBalance := some fromBalance, toBalance := some toBalance, error := none })
    | .error e =>
      let w3 : SagaWorld :=
        { w2 with sagas := sagaSetCompensating w2.sagas sagaId e.message,
                  published := w2.published ++
                    [.compensationInitiated sagaId fromWalletId amount e.message now] }
      match compensateSourceWallet w3.store sagaId fromWalletId amount faults.refundSave
          txRefund now with
      | .ok (store3, pubRefunded, compensationTransactionId, compBalance) =>
        ({ w3 with store := store3,
                   sagas := sagaSetFailed w3.sagas sagaId compensationTransactionId,
                   published := w3.published ++
                     [pubRefunded,
                      .transferFailed sagaId fromWalletId toWalletId amount
                        ("Credit failed: " ++ e.message ++ ". Funds refunded.") now] },
         { success := false, sagaId := sagaId,
           message := "Transfer failed: Unable to credit destination wallet. Funds refunded.",
           fromBalance := some compBalance, toBalance := none, error := some e.message })
      | .error ce =>
        ({ w3 with sagas := sagaSetCompensatingErr w3.sagas sagaId
                     ("Compensation failed: " ++ ce.message) },
         { success := false, sagaId := sagaId,
           message := "CRITICAL: Transfer failed and compensation failed. Manual intervention required.",
           fromBalance := none, toBalance := none,
           error := some ("Original error: " ++ e.message ++ ". Compensation error: " ++
             ce.message) })

/-!
## Idempotency store and guard (libs/shared idempotency/)

Redis is an association list of key, record and absolute expiry time;
`SET key value EX ttl` stores the record with expiry `now + ttl`, and a
`GET` sees the record only before its expiry.  The record is the JSON
document of `IdempotencyService`; its `createdAt`/`completedAt` ISO strings
are modelled by their timestamps.  In this sequential model the
`SET ... NX` between a failed `GET` and a concurrent writer always
succeeds, so the double-check branch of `checkAndLock` is not reachable.
-/

/-- `IdempotencyStatus` enum. -/
inductive IdempotencyStatus where
  | NEW
  | IN_PROGRESS
  | COMPLETED
deriving DecidableEq

/-- `IdempotencyRecord`. -/
structure IdemRecord where
  status : IdempotencyStatus
  response : Option String
  createdAt : Int
  completedAt : Option Int
deriving DecidableEq

/-- Redis contents: key, record and absolute expiry time (seconds). -/
structure RedisState where
  entries : List (String × IdemRecord × Int)
deriving DecidableEq

/-- `GET key` at the given time, honouring expiry. -/
def redisGet (st : RedisState) (key : String) (now : Int) : Option IdemRecord :=
  match st.entries.find? (fun ent => ent.1 == key) with
  | some (_, r, expiry) => if now < expiry then some r else none
  | none => none

/-- `SET key value EX ttl` (overwrite, fresh expiry). -/
def redisSet (st : RedisState) (key : String) (r : IdemRecord) (expiry : Int) : RedisState :=
  { entries := st.entries.filter (fun ent => ent.1 != key) ++ [(key, r, expiry)] }

/-- `DEL key`. -/
def redisDel (st : RedisState) (key : String) : RedisState :=
  { entries := st.entries.filter (fun ent => ent.1 != key) }

/-- `IdempotencyConfig` (host/port omitted: they do not affect the
semantics). -/
structure IdempotencyConfig where
  ttlSeconds : Int
  keyPrefix : String
deriving DecidableEq

/-- Default TTL (idempotency.config.ts). -/
def IDEMPOTENCY_TTL_SECONDS : Int := 86400

/-- Result of `IdempotencyService.checkAndLock`. -/
structure CheckResult where
  isDuplicate : Bool
  status : Option IdempotencyStatus
  response : Option String
deriving DecidableEq

/-- `IdempotencyService.checkAndLock`: return the existing record when
present; otherwise acquire the lock by storing an `IN_PROGRESS` record
with TTL. -/
def checkAndLock (cfg : IdempotencyConfig) (st : RedisState) (key : String) (now : Int) :
    CheckResult × RedisState :=
  let k := cfg.keyPrefix ++ key
  match redisGet st k now with
  | some r => ({ isDuplicate := true, status := some r.status, response := r.response }, st)
  | none =>
    let r : IdemRecord :=
      { status := .IN_PROGRESS, response := none, createdAt := now, completedAt := none }
    ({ isDuplicate := false, status := none, response := none },
     redisSet st k r (now + cfg.ttlSeconds))

/-- `IdempotencyService.complete`: store the `COMPLETED` record (fresh
`createdAt`/`completedAt` of `new Date()`) with `EX ttlSeconds`. -/
def idemComplete (cfg : IdempotencyConfig) (st : RedisState) (key : String)
    (response : String) (now : Int) : RedisState :=
  let k := cfg.keyPrefix ++ key
  redisSet st k
    { status := .COMPLETED, response := some response, createdAt := now,
      completedAt := some now }
    (now + cfg.ttlSeconds)

/-- `IdempotencyService.release`: delete the lock. -/
def idemRelease (cfg : IdempotencyConfig) (st : RedisState) (key : String) : RedisState :=
  redisDel st (cfg.keyPrefix ++ key)

/-- NestJS `HttpStatus.OK`. -/
def HttpStatus.OK : Int := 200

/-- NestJS `HttpStatus.CREATED`. -/
def HttpStatus.CREATED : Int := 201

/-- NestJS `HttpStatus.BAD_REQUEST`. -/
def HttpStatus.BAD_REQUEST : Int := 400

/-- NestJS `HttpStatus.CONFLICT`. -/
def HttpStatus.CONFLICT : Int := 409

/-- The part of the HTTP request the guard reads: whether the route
requires idempotency, the `x-idempotency-key` header, and the request body
(opaque; the guard never reads it). -/
structure GuardRequest where
  requireIdempotency : Bool
  idempotencyKey : Option String
  body : String
deriving DecidableEq

/-- The body sent for a cached response:
`{...record.response, _cached: true, _idempotencyKey: key}`. -/
structure CachedResponseBody where
  response : String
  cached : Bool
  idempotencyKey : String
deriving DecidableEq

/-- Outcome of `IdempotencyGuard.canActivate`: throw an `HttpException`,
answer directly with the cached response, or let the handler run. -/
inductive GuardOutcome where
  | httpException (statusCode : Int) (message : String)
  | cachedResponse (statusCode : Int) (body : CachedResponseBody)
  | proceed
deriving DecidableEq

/-- `IdempotencyGuard.canActivate`. -/
def canActivate (cfg : IdempotencyConfig) (st : RedisState) (req : GuardRequest)
    (now : Int) : GuardOutcome × RedisState :=
  match req.idempotencyKey with
  | none =>
    if req.requireIdempotency then
      (.httpException HttpStatus.BAD_REQUEST
        ("Header x-idempotency-key is required for this operation"), st)
    else (.proceed, st)
  | some key =>
    let res := checkAndLock cfg st key now
    if !res.1.isDuplicate then (.proceed, res.2)
    else if res.1.status = some .IN_PROGRESS then
      (.httpException HttpStatus.CONFLICT ("Request is already being processed"), res.2)
    else if res.1.status = some .COMPLETED then
      (.cachedResponse HttpStatus.OK
        { response := res.1.response.getD "", cached := true, idempotencyKey := key },
       res.2)
    else (.proceed, res.2)

/-!
## Fraud rules and risk profile (fraud-service)
-/

/-- `AlertSeverity` enum. -/
inductive AlertSeverity where
  | LOW
  | MEDIUM
  | HIGH
  | CRITICAL
deriving DecidableEq

/-- `RiskLevel` enum. -/
inductive RiskLevel where
  | LOW
  | MEDIUM
  | HIGH
  | CRITICAL
deriving DecidableEq

/-- `SEVERITY_SCORES` of `RiskProfileService`. -/
def SEVERITY_SCORES : AlertSeverity → Int
  | .LOW => 5
  | .MEDIUM => 15
  | .HIGH => 30
  | .CRITICAL => 50

/-- `RISK_THRESHOLDS` of `RiskProfileService`. -/
def RISK_THRESHOLDS : RiskLevel → Int
  | .LOW => 25
  | .MEDIUM => 50
  | .HIGH => 75
  | .CRITICAL => 100

/-- `RiskProfileService.calculateRiskLevel`. -/
def calculateRiskLevel (score : Int) : RiskLevel :=
  if score ≤ RISK_THRESHOLDS .LOW then .LOW
  else if score ≤ RISK_THRESHOLDS .MEDIUM then .MEDIUM
  else if score ≤ RISK_THRESHOLDS .HIGH then .HIGH
  else .CRITICAL

/-- The fields of a risk-profile row that the update touches. -/
structure RiskProfile where
  riskScore : Int
  riskLevel : RiskLevel
  alertCount : Int
deriving DecidableEq

/-- `FraudRepository.createRiskProfile`: score 0, level LOW, no alerts. -/
def createRiskProfile : RiskProfile :=
  { riskScore := 0, riskLevel := .LOW, alertCount := 0 }

/-- `RiskProfileService.updateRiskProfile` on an existing profile: add the
severity score, clamp at 100 with `Math.min`, recompute the level and bump
the alert count. -/
def updateRiskProfile (p : RiskProfile) (severity : AlertSeverity) : RiskProfile :=
  let newScore := min (p.riskScore + SEVERITY_SCORES severity) 100
  { riskScore := newScore, riskLevel := calculateRiskLevel newScore,
    alertCount := p.alertCount + 1 }

/-- `LARGE_TRANSACTION_THRESHOLD` of `FraudRulesService`. -/
def LARGE_TRANSACTION_THRESHOLD : ℚ := 10000

/-- `VELOCITY_TRANSACTION_COUNT` of `FraudRulesService`. -/
def VELOCITY_TRANSACTION_COUNT : Int := 5

/-- The facts handed to the json-rules-engine run: the event amount and the
dynamic facts computed from the repository. -/
structure FraudFacts where
  amount : ℚ
  recentTransactionCount : Int
  isWithdrawal : Bool
  hasRecentDeposit : Bool
deriving DecidableEq

/-- A triggered alert (`ruleId`, `ruleName`, `severity` as emitted in the
rule event params). -/
structure FraudAlert where
  ruleId : String
  ruleName : String
  severity : String
deriving DecidableEq

/-- `FraudRulesService.evaluateRules`: each rule contributes its alert
exactly when its condition holds. -/
def evaluateRules (facts : FraudFacts) : List FraudAlert :=
  (if facts.amount > LARGE_TRANSACTION_THRESHOLD then
    [{ ruleId := "large-transaction", ruleName := "Large Transaction Alert",
       severity := "HIGH" }]
   else []) ++
  (if facts.recentTransactionCount > VELOCITY_TRANSACTION_COUNT then
    [{ ruleId := "high-velocity", ruleName := "High Velocity Alert",
       severity := "MEDIUM" }]
   else []) ++
  (if facts.isWithdrawal && facts.hasRecentDeposit then
    [{ ruleId := "rapid-withdrawal", ruleName := "Rapid Withdrawal Pattern",
       severity := "HIGH" }]
   else [])

/-!
## Command sequences over one aggregate
-/

/-- A command invocation on the aggregate (the generated `Date`/`uuid`
arguments included). -/
inductive WalletCmd where
  | deposit (amount : ℚ) (timestamp : Int) (transactionId : String)
  | withdraw (amount : ℚ) (timestamp : Int) (transactionId : String)
  | transferOut (toWalletId : String) (amount : ℚ) (timestamp : Int) (transactionId : String)
deriving DecidableEq

/-- Run one command method. -/
def runCmd (w : WalletAggregate) : WalletCmd → WalletAggregate × Option Err
  | .deposit a ts tx => w.deposit a ts tx
  | .withdraw a ts tx => w.withdraw a ts tx
  | .transferOut t a ts tx => w.transferOut t a ts tx

/-- Run a sequence of commands, requiring every one to succeed. -/
def runCmds (w : WalletAggregate) : List WalletCmd → Option WalletAggregate
  | [] => some w
  | c :: cs =>
    match runCmd w c with
    | (w2, none) => runCmds w2 cs
    | (_, some _) => none

/-- Sum of the deposited amounts of a command sequence. -/
def sumDeposits : List WalletCmd → ℚ
  | [] => 0
  | .deposit a _ _ :: cs => a + sumDeposits cs
  | .withdraw _ _ _ :: cs => sumDeposits cs
  | .transferOut _ _ _ _ :: cs => sumDeposits cs

/-- Sum of the withdrawn and transferred-out amounts of a command
sequence. -/
def sumWithdrawals : List WalletCmd → ℚ
  | [] => 0
  | .deposit _ _ _ :: cs => sumWithdrawals cs
  | .withdraw a _ _ :: cs => a + sumWithdrawals cs
  | .transferOut _ a _ _ :: cs => a + sumWithdrawals cs

theorem runCmds_balance : ∀ (cs : List WalletCmd) (w w2 : WalletAggregate),
    runCmds w cs = some w2 →
    w2.balance = w.balance + sumDeposits cs - sumWithdrawals cs ∧
      (0 ≤ w.balance → 0 ≤ w2.balance) := by
  intro cs
  induction cs with
  | nil =>
    intro w w2 h
    simp only [runCmds] at h
    cases h
    simp [sumDeposits, sumWithdrawals]
  | cons c cs ih =>
    intro w w2 h
    cases c with
    | deposit a ts tx =>
      simp only [runCmds, runCmd, WalletAggregate.deposit] at h
      by_cases ha : a ≤ 0
      · simp [ha] at h
      · simp only [ha, if_false] at h
        obtain ⟨h1, h2⟩ := ih _ _ h
        simp only [sumDeposits, sumWithdrawals]
        constructor
        · simp only [h1]; ring
        · intro hw
          apply h2
          simp only []
          push_neg at ha
          linarith
    | withdraw a ts tx =>
      simp only [runCmds, runCmd, WalletAggregate.withdraw] at h
      by_cases ha : a ≤ 0
      · simp [ha] at h
      · by_cases hb : w.balance < a
        · simp [ha, hb] at h
        · simp only [ha, hb, if_false] at h
          obtain ⟨h1, h2⟩ := ih _ _ h
          simp only [sumDeposits, sumWithdrawals]
          constructor
          · simp only [h1]; ring
          · intro hw
            apply h2
            simp only []
            push_neg at hb
            linarith
    | transferOut t a ts tx =>
      simp only [runCmds, runCmd, WalletAggregate.transferOut] at h
      by_cases ha : a ≤ 0
      · simp [ha] at h
      · by_cases hb : w.balance < a
        · simp [ha, hb] at h
        · simp only [ha, hb, if_false] at h
          obtain ⟨h1, h2⟩ := ih _ _ h
          simp only [sumDeposits, sumWithdrawals]
          constructor
          · simp only [h1]; ring
          · intro hw
            apply h2
            simp only []
            push_neg at hb
            linarith

/-- Claim C1: for every wallet aggregate, starting from the initial state
(balance 0, version 0), every sequence of successful command invocations
(deposit, withdraw, transferOut) yields a state whose balance equals the
sum of deposited amounts minus the sum of withdrawn and transferred-out
amounts, and that balance is non-negative; in particular `balance ≥ 0`
holds in every reachable committed state. -/
theorem claim_C1 (id : String) (cs : List WalletCmd) (w : WalletAggregate)
    (h : runCmds (newWallet id) cs = some w) :
    w.balance = sumDeposits cs - sumWithdrawals cs ∧ 0 ≤ w.balance := by
  obtain ⟨h1, h2⟩ := runCmds_balance cs (newWallet id) w h
  refine ⟨?_, h2 (by simp [newWallet])⟩
  simpa [newWallet] using h1

/-- Witness for claim C1 at a concrete command sequence. -/
theorem claim_C1_witness :
    runCmds (newWallet ("w1"))
        [WalletCmd.deposit 100 0 ("t1"), WalletCmd.withdraw 30 1 ("t2"),
         WalletCmd.transferOut ("w2") 20 2 ("t3")] =
      some { id := "w1", balance := 50, version := 3,
             uncommitted := [WEvent.deposited ("w1") 100 0 ("t1"),
                             WEvent.withdrawn ("w1") 30 1 ("t2"),
                             WEvent.transferred ("w1") ("w2") 20 2 ("t3")] } ∧
    (50 : ℚ) = sumDeposits
        [WalletCmd.deposit 100 0 ("t1"), WalletCmd.withdraw 30 1 ("t2"),
         WalletCmd.transferOut ("w2") 20 2 ("t3")] -
      sumWithdrawals
        [WalletCmd.deposit 100 0 ("t1"), WalletCmd.withdraw 30 1 ("t2"),
         WalletCmd.transferOut ("w2") 20 2 ("t3")] ∧
    (0 : ℚ) ≤ 50 := by
  refine ⟨by norm_num [runCmds, runCmd, WalletAggregate.deposit, WalletAggregate.withdraw,
    WalletAggregate.transferOut, newWallet], ?_, by norm_num⟩
  have h := claim_C1 ("w1")
    [WalletCmd.deposit 100 0 ("t1"), WalletCmd.withdraw 30 1 ("t2"),
     WalletCmd.transferOut ("w2") 20 2 ("t3")]
    { id := "w1", balance := 50, version := 3,
      uncommitted := [WEvent.deposited ("w1") 100 0 ("t1"),
                      WEvent.withdrawn ("w1") 30 1 ("t2"),
                      WEvent.transferred ("w1") ("w2") 20 2 ("t3")] }
    (by norm_num [runCmds, runCmd, WalletAggregate.deposit, WalletAggregate.withdraw,
      WalletAggregate.transferOut, newWallet])
  simpa using h.1

/-- Claim C5: `deposit` rejects every non-positive amount with the
invalid-amount error and otherwise emits exactly one `MoneyDeposited`
event; `withdraw` rejects every non-positive amount with the
invalid-amount error and every amount above the balance with the
insufficient-funds error, and otherwise emits exactly one `MoneyWithdrawn`
event; in every rejecting case the returned aggregate is the unchanged
receiver (same balance, same version, nothing emitted). -/
theorem claim_C5 :
    (∀ (w : WalletAggregate) (a : ℚ) (ts : Int) (tx : String), a ≤ 0 →
      w.deposit a ts tx = (w, some (.invalidAmount ("Deposit amount must be positive")))) ∧
    (∀ (w : WalletAggregate) (a : ℚ) (ts : Int) (tx : String), 0 < a →
      w.deposit a ts tx =
        ({ w with balance := w.balance + a, version := w.version + 1,
                  uncommitted := w.uncommitted ++ [WEvent.deposited w.id a ts tx] }, none)) ∧
    (∀ (w : WalletAggregate) (a : ℚ) (ts : Int) (tx : String), a ≤ 0 →
      w.withdraw a ts tx =
        (w, some (.invalidAmount ("Withdrawal amount must be positive")))) ∧
    (∀ (w : WalletAggregate) (a : ℚ) (ts : Int) (tx : String), 0 < a → w.balance < a →
      w.withdraw a ts tx = (w, some (.insufficientFunds (insufficientMsg w.balance a)))) ∧
    (∀ (w : WalletAggregate) (a : ℚ) (ts : Int) (tx : String), 0 < a → a ≤ w.balance →
      w.withdraw a ts tx =
        ({ w with balance := w.balance - a, version := w.version + 1,
                  uncommitted := w.uncommitted ++ [WEvent.withdrawn w.id a ts tx] }, none)) := by
  refine ⟨?_, ?_, ?_, ?_, ?_⟩
  · intro w a ts tx ha
    simp [WalletAggregate.deposit, ha]
  · intro w a ts tx ha
    simp [WalletAggregate.deposit, not_le.mpr ha]
  · intro w a ts tx ha
    simp [WalletAggregate.withdraw, ha]
  · intro w a ts tx ha hb
    rw [WalletAggregate.withdraw, if_neg (by linarith), if_pos hb]
  · intro w a ts tx ha hb
    rw [WalletAggregate.withdraw, if_neg (by linarith), if_neg (by linarith)]

/-- Witness for claim C5 at concrete aggregates and amounts. -/
theorem claim_C5_witness :
    ((-3 : ℚ) ≤ 0 ∧
      (newWallet ("a")).deposit (-3) 0 ("t") =
        (newWallet ("a"), some (.invalidAmount ("Deposit amount must be positive")))) ∧
    ((0 : ℚ) < 5 ∧ (5 : ℚ) < 7 ∧
      { newWallet ("a") with balance := (5 : ℚ) }.withdraw 7 0 ("t") =
        ({ newWallet ("a") with balance := (5 : ℚ) },
         some (.insufficientFunds (insufficientMsg 5 7)))) := by
  refine ⟨⟨by norm_num, claim_C5.1 _ _ _ _ (by norm_num)⟩,
          ⟨by norm_num, by norm_num, claim_C5.2.2.2.1 _ _ _ _ (by norm_num) (by norm_num)⟩⟩

/-- Claim C9: each processed alert adds the severity increment (LOW +5,
MEDIUM +15, HIGH +30, CRITICAL +50) to the risk score, clamped at 100 and
never decreasing; the stored level is the bucket of the new score
([0,25] LOW, (25,50] MEDIUM, (50,75] HIGH, (75,100] CRITICAL); and the
large-transaction rule fires exactly when the amount exceeds 10000, with
severity HIGH. -/
theorem claim_C9 :
    (SEVERITY_SCORES .LOW = 5 ∧ SEVERITY_SCORES .MEDIUM = 15 ∧
     SEVERITY_SCORES .HIGH = 30 ∧ SEVERITY_SCORES .CRITICAL = 50) ∧
    (∀ (p : RiskProfile) (sev : AlertSeverity), 0 ≤ p.riskScore → p.riskScore ≤ 100 →
      (updateRiskProfile p sev).riskScore = min (p.riskScore + SEVERITY_SCORES sev) 100 ∧
      p.riskScore ≤ (updateRiskProfile p sev).riskScore ∧
      (updateRiskProfile p sev).riskScore ≤ 100 ∧
      (updateRiskProfile p sev).riskLevel =
        calculateRiskLevel (updateRiskProfile p sev).riskScore) ∧
    (∀ s : Int, 0 ≤ s → s ≤ 25 → calculateRiskLevel s = .LOW) ∧
    (∀ s : Int, 25 < s → s ≤ 50 → calculateRiskLevel s = .MEDIUM) ∧
    (∀ s : Int, 50 < s → s ≤ 75 → calculateRiskLevel s = .HIGH) ∧
    (∀ s : Int, 75 < s → s ≤ 100 → calculateRiskLevel s = .CRITICAL) ∧
    (∀ f : FraudFacts,
      (evaluateRules f).filter (fun al => al.ruleId == "large-transaction") =
        if f.amount > LARGE_TRANSACTION_THRESHOLD then
          [{ ruleId := "large-transaction", ruleName := "Large Transaction Alert",
             severity := "HIGH" }]
        else []) := by
  refine ⟨⟨rfl, rfl, rfl, rfl⟩, ?_, ?_, ?_, ?_, ?_, ?_⟩
  · intro p sev h0 h100
    refine ⟨rfl, ?_, ?_, rfl⟩
    · have : 0 < SEVERITY_SCORES sev := by cases sev <;> decide
      simp only [updateRiskProfile]
      omega
    · simp only [updateRiskProfile]
      omega
  · intro s h0 h25
    simp only [calculateRiskLevel, RISK_THRESHOLDS]
    rw [if_pos (by omega)]
  · intro s h25 h50
    simp only [calculateRiskLevel, RISK_THRESHOLDS]
    rw [if_neg (by omega), if_pos (by omega)]
  · intro s h50 h75
    simp only [calculateRiskLevel, RISK_THRESHOLDS]
    rw [if_neg (by omega), if_neg (by omega), if_pos (by omega)]
  · intro s h75 h100
    simp only [calculateRiskLevel, RISK_THRESHOLDS]
    rw [if_neg (by omega), if_neg (by omega), if_neg (by omega)]
  · intro f
    simp only [evaluateRules]
    by_cases h1 : f.amount > LARGE_TRANSACTION_THRESHOLD <;>
      by_cases h2 : f.recentTransactionCount > VELOCITY_TRANSACTION_COUNT <;>
      by_cases h3 : f.isWithdrawal && f.hasRecentDeposit <;>
      simp [h1, h2, h3]

/-- Witness for claim C9: a HIGH alert on a profile at score 80 clamps to
100 and lands in the CRITICAL bucket. -/
theorem claim_C9_witness :
    ((0 : Int) ≤ 80 ∧ (80 : Int) ≤ 100 ∧
      (updateRiskProfile { riskScore := 80, riskLevel := .CRITICAL, alertCount := 4 }
          .HIGH).riskScore = min (80 + SEVERITY_SCORES .HIGH) 100) ∧
    ((75 : Int) < 100 ∧ (100 : Int) ≤ 100 ∧ calculateRiskLevel 100 = .CRITICAL) := by
  refine ⟨⟨by norm_num, by norm_num,
    (claim_C9.2.1 { riskScore := 80, riskLevel := .CRITICAL, alertCount := 4 } .HIGH
      (by norm_num) (by norm_num)).1⟩,
    ⟨by norm_num, by norm_num,
      claim_C9.2.2.2.2.2.1 100 (by norm_num) (by norm_num)⟩⟩

/-- The configuration used by the concrete idempotency scenarios: the
default 24-hour TTL and the `idempotency:` key prefix. -/
def demoCfg : IdempotencyConfig :=
  { ttlSeconds := IDEMPOTENCY_TTL_SECONDS, keyPrefix := "idempotency:" }

/-- Counterexample to claim C8 as stated: lock a key at time 0 (its record
then carries `createdAt = 0` and expires at `0 + 86400`), complete it at
time 100; the stored record carries `createdAt = 100` (not the original 0)
and expires at `100 + 86400 = 86500` (not the original `86400`): `complete`
overwrites `created_at` with the completion time and restarts the full TTL
from it. -/
theorem claim_C8_counterexample :
    (idemComplete demoCfg (checkAndLock demoCfg ⟨[]⟩ ("k") 0).2 ("k") ("resp") 100).entries =
      [("idempotency:k",
        { status := .COMPLETED, response := some ("resp"), createdAt := 100,
          completedAt := some 100 }, 86500)] ∧
    (100 : Int) ≠ 0 ∧ (86500 : Int) ≠ 0 + 86400 := by
  refine ⟨by decide, by decide, by decide⟩

/-- Claim C8 (amended): `complete(key, response)` stores the `COMPLETED`
record with the cached response, but with a fresh `created_at` equal to the
completion time, and it resets the TTL to the full configured `ttlSeconds`
measured from the completion time (it does not keep the TTL from the
original `created_at`). -/
theorem claim_C8 (cfg : IdempotencyConfig) (st : RedisState) (key response : String)
    (now : Int) :
    (idemComplete cfg st key response now).entries =
      st.entries.filter (fun ent => ent.1 != cfg.keyPrefix ++ key) ++
        [(cfg.keyPrefix ++ key,
          { status := .COMPLETED, response := some response, createdAt := now,
            completedAt := some now }, now + cfg.ttlSeconds)] := rfl

/-- Concrete state for the cached-response scenario: the key `k` was
completed at time 0 with cached response body `resp0`. -/
def demoCompletedState : RedisState :=
  ⟨[("idempotency:k",
     { status := .COMPLETED, response := some ("resp0"), createdAt := 0,
       completedAt := some 0 }, 86400)]⟩

/-- Counterexample to claim C4 as stated: with the key `k` in status
`COMPLETED`, the guard answers the duplicate request with HTTP status 200
(`HttpStatus.OK` in the source), not 201; the cached body and annotations
are as claimed. -/
theorem claim_C4_counterexample :
    (canActivate demoCfg demoCompletedState
        { requireIdempotency := true, idempotencyKey := some ("k"), body := "newbody" }
        10).1 =
      .cachedResponse 200
        { response := "resp0", cached := true, idempotencyKey := "k" } ∧
    (200 : Int) ≠ 201 := by
  refine ⟨by decide, by decide⟩

/-- Claim C4 (amended): for every mutating request whose idempotency key is
in status `COMPLETED`, the guard responds with HTTP status 200 (not 201)
carrying the first request response body annotated with `_cached : true`
and `_idempotencyKey : key`, and this cached response is returned
regardless of the new request body — two requests sharing a key return the
first request outcome. -/
theorem claim_C4 (cfg : IdempotencyConfig) (st : RedisState) (key : String) (now : Int)
    (r : Bool) (rec : IdemRecord) (body1 body2 : String)
    (hget : redisGet st (cfg.keyPrefix ++ key) now = some rec)
    (hstat : rec.status = .COMPLETED) :
    canActivate cfg st
        { requireIdempotency := r, idempotencyKey := some key, body := body1 } now =
      (.cachedResponse HttpStatus.OK
        { response := rec.response.getD "", cached := true, idempotencyKey := key }, st) ∧
    canActivate cfg st
        { requireIdempotency := r, idempotencyKey := some key, body := body1 } now =
      canActivate cfg st
        { requireIdempotency := r, idempotencyKey := some key, body := body2 } now := by
  have hone : ∀ b : String,
      canActivate cfg st
          { requireIdempotency := r, idempotencyKey := some key, body := b } now =
        (.cachedResponse HttpStatus.OK
          { response := rec.response.getD "", cached := true, idempotencyKey := key },
         st) := by
    intro b
    simp only [canActivate, checkAndLock]
    rw [hget]
    simp [hstat]
  exact ⟨hone body1, (hone body1).trans (hone body2).symm⟩

/-- Witness for claim C4 (amended) at the concrete completed record. -/
theorem claim_C4_witness :
    redisGet demoCompletedState ("idempotency:" ++ "k") 10 =
      some { status := .COMPLETED, response := some ("resp0"), createdAt := 0,
             completedAt := some 0 } ∧
    canActivate demoCfg demoCompletedState
        { requireIdempotency := true, idempotencyKey := some ("k"), body := "b1" } 10 =
      (.cachedResponse HttpStatus.OK
        { response := "resp0", cached := true, idempotencyKey := "k" },
       demoCompletedState) := by
  refine ⟨by decide, ?_⟩
  have h := claim_C4 demoCfg demoCompletedState ("k") 10 true
    { status := .COMPLETED, response := some ("resp0"), createdAt := 0,
      completedAt := some 0 }
    ("b1") ("b2") (by decide) rfl
  exact h.1

theorem mkEntities_versions (aggId aggType : String) (evs : List WEvent) (v : Nat) :
    (mkEntities aggId aggType evs v).map (fun s => s.version) =
      List.range' (v + 1) evs.length := by
  induction evs generalizing v with
  | nil => simp [mkEntities]
  | cons e rest ih =>
    simp [mkEntities, List.range'_succ, ih]

theorem saveEvents_ok (store : List StoredEvent) (aggId aggType : String)
    (evs : List WEvent) (v : Nat) (st2 : List StoredEvent)
    (h : saveEvents store aggId aggType evs v = .ok st2) :
    st2 = store ++ mkEntities aggId aggType evs v := by
  simp only [saveEvents] at h
  split at h
  · exact absurd h (by simp)
  · simpa using h.symm

theorem runCmd_shape (w w2 : WalletAggregate) (c : WalletCmd)
    (h : runCmd w c = (w2, none)) :
    w2.id = w.id ∧ w2.version = w.version + 1 ∧
      w2.uncommitted.length = w.uncommitted.length + 1 := by
  cases c with
  | deposit a ts tx =>
    simp only [runCmd, WalletAggregate.deposit] at h
    split at h
    · simp at h
    · obtain ⟨h1, _⟩ := Prod.mk.injEq .. ▸ h
      cases h
      simp
  | withdraw a ts tx =>
    simp only [runCmd, WalletAggregate.withdraw] at h
    split at h
    · simp at h
    · split at h
      · simp at h
      · cases h
        simp
  | transferOut t a ts tx =>
    simp only [runCmd, WalletAggregate.transferOut] at h
    split at h
    · simp at h
    · split at h
      · simp at h
      · cases h
        simp

theorem runCmds_shape : ∀ (cs : List WalletCmd) (w w2 : WalletAggregate),
    runCmds w cs = some w2 →
    w2.id = w.id ∧ ∃ k, w2.version = w.version + k ∧
      w2.uncommitted.length = w.uncommitted.length + k := by
  intro cs
  induction cs with
  | nil =>
    intro w w2 h
    simp only [runCmds] at h
    cases h
    exact ⟨rfl, 0, rfl, rfl⟩
  | cons c cs ih =>
    intro w w2 h
    simp only [runCmds] at h
    rcases hc : runCmd w c with ⟨w1, err⟩
    rw [hc] at h
    cases err with
    | none =>
      obtain ⟨hid, k, hv, hu⟩ := ih w1 w2 h
      obtain ⟨hid1, hv1, hu1⟩ := runCmd_shape w w1 c hc
      exact ⟨hid.trans hid1, k + 1, by omega, by omega⟩
    | some e => simp at h

theorem replayEvent_frame (w : WalletAggregate) (e : WEvent) :
    (w.replayEvent e).id = w.id ∧ (w.replayEvent e).version = w.version ∧
      (w.replayEvent e).uncommitted = w.uncommitted := by
  cases e with
  | deposited a b c d => exact ⟨rfl, rfl, rfl⟩
  | withdrawn a b c d => exact ⟨rfl, rfl, rfl⟩
  | transferred a b c d f =>
    simp only [WalletAggregate.replayEvent, WalletAggregate.applyMoneyTransferred]
    split
    · exact ⟨rfl, rfl, rfl⟩
    · split
      · exact ⟨rfl, rfl, rfl⟩
      · exact ⟨rfl, rfl, rfl⟩

theorem replayStored_frame : ∀ (rows : List StoredEvent) (w : WalletAggregate),
    (replayStored w rows).id = w.id ∧ (replayStored w rows).version = w.version ∧
      (replayStored w rows).uncommitted = w.uncommitted := by
  intro rows
  induction rows with
  | nil => intro w; exact ⟨rfl, rfl, rfl⟩
  | cons r rows ih =>
    intro w
    simp only [replayStored, List.foldl_cons]
    rcases hd : deserializeEvent r.eventType r.eventData with _ | e
    · simpa only [replayStored, hd] using ih w
    · have h1 := replayEvent_frame w e
      have h2 := ih (w.replayEvent e)
      simp only [replayStored, hd] at h2 ⊢
      exact ⟨h2.1.trans h1.1, h2.2.1.trans h1.2.1, h2.2.2.trans h1.2.2⟩

theorem findById_fields (store : List StoredEvent) (id : String) :
    (findById store id).id = id ∧
      (findById store id).version = (getEvents store id).length ∧
      (findById store id).uncommitted = [] := by
  exact ⟨(replayStored_frame (getEvents store id) (newWallet id)).1, rfl,
    (replayStored_frame (getEvents store id) (newWallet id)).2.2⟩

/-- Claim C6: `saveEvents` assigns versions `expectedVersion+1` through
`expectedVersion+N` to the N events in list order and appends them
atomically (the whole batch on success, nothing on the unique-constraint
conflict); the wallet repository passes as expected version the number of
events loaded at read time (`base_version = events.length`, preserved as
`version - uncommitted.length` across successful commands); and two
commits with the same expected version cannot both succeed. -/
theorem claim_C6 :
    (∀ (aggId aggType : String) (evs : List WEvent) (v : Nat),
      (mkEntities aggId aggType evs v).map (fun s => s.version) =
        List.range' (v + 1) evs.length) ∧
    (∀ (store : List StoredEvent) (aggId aggType : String) (evs : List WEvent) (v : Nat)
        (st2 : List StoredEvent),
      saveEvents store aggId aggType evs v = .ok st2 →
        st2 = store ++ mkEntities aggId aggType evs v) ∧
    (∀ (store : List StoredEvent) (aggId aggType aggType2 : String)
        (evs evs2 : List WEvent) (v : Nat) (st2 : List StoredEvent),
      evs ≠ [] → evs2 ≠ [] → saveEvents store aggId aggType evs v = .ok st2 →
        saveEvents st2 aggId aggType2 evs2 v =
          .error (.conflict ("duplicate key value violates unique constraint"))) ∧
    (∀ (store : List StoredEvent) (id : String) (cs : List WalletCmd)
        (w : WalletAggregate),
      runCmds (findById store id) cs = some w →
        w.id = id ∧
        w.version - w.uncommitted.length = (getEvents store id).length ∧
        (w.uncommitted ≠ [] → ∀ store2 : List StoredEvent,
          repoSave store2 w =
            saveEvents store2 id ("WalletAggregate") w.uncommitted
              ((getEvents store id).length))) := by
  refine ⟨mkEntities_versions, saveEvents_ok, ?_, ?_⟩
  · intro store aggId aggType aggType2 evs evs2 v st2 h1 h2 hok
    have hst := saveEvents_ok store aggId aggType evs v st2 hok
    rcases evs with _ | ⟨e, rest⟩
    · exact absurd rfl h1
    rcases evs2 with _ | ⟨e2, rest2⟩
    · exact absurd rfl h2
    have hmem : (mkEntities aggId aggType (e :: rest) v).head? =
        some { aggregateId := aggId, aggregateType := aggType, eventType := e.ctorName,
               eventData := serializeEvent e, version := v + 1,
               transactionId := e.transactionId } := rfl
    simp only [saveEvents]
    rw [if_pos]
    rw [List.any_eq_true]
    refine ⟨{ aggregateId := aggId, aggregateType := aggType2, eventType := e2.ctorName,
              eventData := serializeEvent e2, version := v + 1,
              transactionId := e2.transactionId }, ?_, ?_⟩
    · simp [mkEntities]
    · rw [List.any_eq_true]
      refine ⟨{ aggregateId := aggId, aggregateType := aggType, eventType := e.ctorName,
                eventData := serializeEvent e, version := v + 1,
                transactionId := e.transactionId }, ?_, ?_⟩
      · rw [hst]
        refine List.mem_append.mpr (Or.inr ?_)
        simp [mkEntities]
      · simp
  · intro store id cs w h
    obtain ⟨hid, k, hv, hu⟩ := runCmds_shape cs (findById store id) w h
    obtain ⟨hfid, hfv, hfu⟩ := findById_fields store id
    have hwid : w.id = id := hid.trans hfid
    have hlen : w.uncommitted.length = k := by
      rw [hu, hfu]; simp
    refine ⟨hwid, by omega, ?_⟩
    intro hne store2
    have hnonempty : w.uncommitted.isEmpty = false := by
      rcases hw : w.uncommitted with _ | ⟨a, b⟩
      · exact absurd hw hne
      · rfl
    simp only [repoSave, hnonempty, Bool.false_eq_true, if_false, hwid]
    congr 1
    omega

/-- Witness for claim C6: two one-event commits at expected version 0 on an
empty store; the first succeeds with version 1, the second conflicts. -/
theorem claim_C6_witness :
    ([WEvent.deposited ("w1") 100 0 ("t1")] ≠ ([] : List WEvent)) ∧
    saveEvents [] ("w1") ("WalletAggregate") [WEvent.deposited ("w1") 100 0 ("t1")] 0 =
      .ok (mkEntities ("w1") ("WalletAggregate") [WEvent.deposited ("w1") 100 0 ("t1")] 0) ∧
    saveEvents (mkEntities ("w1") ("WalletAggregate")
        [WEvent.deposited ("w1") 100 0 ("t1")] 0)
        ("w1") ("WalletAggregate") [WEvent.deposited ("w1") 200 1 ("t2")] 0 =
      .error (.conflict ("duplicate key value violates unique constraint")) := by
  have hfirst : saveEvents [] ("w1") ("WalletAggregate")
      [WEvent.deposited ("w1") 100 0 ("t1")] 0 =
        .ok (mkEntities ("w1") ("WalletAggregate")
          [WEvent.deposited ("w1") 100 0 ("t1")] 0) := by
    simp [saveEvents]
  refine ⟨by simp, hfirst, ?_⟩
  have h := (claim_C6.2.2.1) [] ("w1") ("WalletAggregate") ("WalletAggregate")
    [WEvent.deposited ("w1") 100 0 ("t1")] [WEvent.deposited ("w1") 200 1 ("t2")] 0
    (mkEntities ("w1") ("WalletAggregate") [WEvent.deposited ("w1") 100 0 ("t1")] 0)
    (by simp) (by simp) hfirst
  simpa using h

theorem roundtrip_event (e : WEvent) :
    deserializeEvent e.ctorName (serializeEvent e) = some e := by
  cases e <;> simp [deserializeEvent, serializeEvent, WEvent.ctorName, iso_roundtrip]

theorem replayStored_append (w : WalletAggregate) (rows1 rows2 : List StoredEvent) :
    replayStored w (rows1 ++ rows2) = replayStored (replayStored w rows1) rows2 := by
  simp [replayStored, List.foldl_append]

theorem replay_mkEntities : ∀ (evs : List WEvent) (w : WalletAggregate)
    (aggId aggType : String) (v : Nat),
    replayStored w (mkEntities aggId aggType evs v) =
      evs.foldl (fun acc e => acc.replayEvent e) w := by
  intro evs
  induction evs with
  | nil => intro w aggId aggType v; rfl
  | cons e rest ih =>
    intro w aggId aggType v
    simp only [mkEntities, replayStored, List.foldl_cons, roundtrip_event]
    exact ih (w.replayEvent e) aggId aggType (v + 1)

theorem replayFold_id : ∀ (evs : List WEvent) (w : WalletAggregate),
    (evs.foldl (fun acc e => acc.replayEvent e) w).id = w.id := by
  intro evs
  induction evs with
  | nil => intro w; rfl
  | cons e rest ih =>
    intro w
    simp only [List.foldl_cons]
    exact (ih (w.replayEvent e)).trans (replayEvent_frame w e).1

/-- The rebuild invariant: replaying the uncommitted events of a reachable
aggregate onto a fresh aggregate of the same id reproduces its balance. -/
def RebuildOK (w : WalletAggregate) : Prop :=
  (w.uncommitted.foldl (fun acc e => acc.replayEvent e) (newWallet w.id)).balance = w.balance

theorem replayEvent_deposited (w : WalletAggregate) (id : String) (a : ℚ) (ts : Int)
    (tx : String) : w.replayEvent (.deposited id a ts tx) = w.applyMoneyDeposited a := rfl

theorem replayEvent_withdrawn (w : WalletAggregate) (id : String) (a : ℚ) (ts : Int)
    (tx : String) : w.replayEvent (.withdrawn id a ts tx) = w.applyMoneyWithdrawn a := rfl

theorem replayEvent_transferred (w : WalletAggregate) (f t : String) (a : ℚ) (ts : Int)
    (tx : String) :
    w.replayEvent (.transferred f t a ts tx) = w.applyMoneyTransferred f t a := rfl

theorem applyMoneyTransferred_from (w : WalletAggregate) (f t : String) (a : ℚ)
    (h : f = w.id) : w.applyMoneyTransferred f t a = { w with balance := w.balance - a } := by
  simp [WalletAggregate.applyMoneyTransferred, h]

theorem runCmd_rebuild (w w2 : WalletAggregate) (c : WalletCmd)
    (h : runCmd w c = (w2, none)) (hP : RebuildOK w) : RebuildOK w2 := by
  have hacc : (List.foldl (fun acc e => acc.replayEvent e) (newWallet w.id)
      w.uncommitted).id = w.id := replayFold_id w.uncommitted (newWallet w.id)
  cases c with
  | deposit a ts tx =>
    simp only [runCmd, WalletAggregate.deposit] at h
    split at h
    · simp at h
    · cases h
      simp only [RebuildOK] at hP ⊢
      rw [List.foldl_append]
      simp only [List.foldl_cons, List.foldl_nil]
      rw [replayEvent_deposited]
      simp only [WalletAggregate.applyMoneyDeposited]
      rw [hP]
  | withdraw a ts tx =>
    simp only [runCmd, WalletAggregate.withdraw] at h
    split at h
    · simp at h
    · split at h
      · simp at h
      · cases h
        simp only [RebuildOK] at hP ⊢
        rw [List.foldl_append]
        simp only [List.foldl_cons, List.foldl_nil]
        rw [replayEvent_withdrawn]
        simp only [WalletAggregate.applyMoneyWithdrawn]
        rw [hP]
  | transferOut t a ts tx =>
    simp only [runCmd, WalletAggregate.transferOut] at h
    split at h
    · simp at h
    · split at h
      · simp at h
      · cases h
        simp only [RebuildOK] at hP ⊢
        rw [List.foldl_append]
        simp only [List.foldl_cons, List.foldl_nil]
        rw [replayEvent_transferred, applyMoneyTransferred_from _ _ _ _ hacc.symm]
        simp only []
        rw [hP]

theorem runCmds_rebuild : ∀ (cs : List WalletCmd) (w w2 : WalletAggregate),
    runCmds w cs = some w2 → RebuildOK w → RebuildOK w2 := by
  intro cs
  induction cs with
  | nil =>
    intro w w2 h hP
    simp only [runCmds] at h
    cases h
    exact hP
  | cons c cs ih =>
    intro w w2 h hP
    simp only [runCmds] at h
    rcases hc : runCmd w c with ⟨w1, err⟩
    rw [hc] at h
    cases err with
    | none => exact ih w1 w2 h (runCmd_rebuild w w1 c hc hP)
    | some e => simp at h

/-- Claim C10: for each of the three wallet event classes, deserializing
the serialized event reconstructs an event field-equal to the original
(`Date` fields round-trip through their ISO-8601 strings); consequently an
aggregate rebuilt by replaying its saved events has the same balance as
the aggregate that emitted them; an event whose `eventType` matches none
of the three deserializes to `null` and is skipped during replay, leaving
the rebuilt state unchanged. -/
theorem claim_C10 :
    (∀ e : WEvent, deserializeEvent e.ctorName (serializeEvent e) = some e) ∧
    (∀ (ty : String) (d : EventData), ty ≠ "MoneyDepositedEvent" →
      ty ≠ "MoneyWithdrawnEvent" → ty ≠ "MoneyTransferredEvent" →
      deserializeEvent ty d = none) ∧
    (∀ (w : WalletAggregate) (rows : List StoredEvent) (se : StoredEvent),
      deserializeEvent se.eventType se.eventData = none →
      replayStored w (rows ++ [se]) = replayStored w rows) ∧
    (∀ (id : String) (cs : List WalletCmd) (w : WalletAggregate)
        (aggType : String) (v : Nat),
      runCmds (newWallet id) cs = some w →
      (replayStored (newWallet id) (mkEntities id aggType w.uncommitted v)).balance =
        w.balance) := by
  refine ⟨roundtrip_event, ?_, ?_, ?_⟩
  · intro ty d h1 h2 h3
    unfold deserializeEvent
    split
    · exact absurd rfl h1
    · exact absurd rfl h2
    · exact absurd rfl h3
    · rfl
  · intro w rows se hnone
    rw [replayStored_append]
    simp [replayStored, hnone]
  · intro id cs w aggType v h
    have hid : w.id = id := by
      have := (runCmds_shape cs (newWallet id) w h).1
      simpa [newWallet] using this
    have hP : RebuildOK w := by
      apply runCmds_rebuild cs (newWallet id) w h
      simp [RebuildOK, newWallet]
    rw [replay_mkEntities]
    simp only [RebuildOK, hid] at hP
    exact hP

/-- Witness for claim C10: an unknown event type deserializes to `null`,
and the rebuilt balance of a concrete one-deposit aggregate matches. -/
theorem claim_C10_witness :
    (("BogusEvent" : String) ≠ "MoneyDepositedEvent" ∧
     ("BogusEvent" : String) ≠ "MoneyWithdrawnEvent" ∧
     ("BogusEvent" : String) ≠ "MoneyTransferredEvent" ∧
     deserializeEvent ("BogusEvent")
       { walletId := none, fromWalletId := none, toWalletId := none,
         amount := none, timestamp := none, transactionId := none } = none) ∧
    (runCmds (newWallet ("w")) [WalletCmd.deposit 100 0 ("t1")] =
      some { id := "w", balance := 100, version := 1,
             uncommitted := [WEvent.deposited ("w") 100 0 ("t1")] } ∧
     (replayStored (newWallet ("w"))
        (mkEntities ("w") ("WalletAggregate")
          [WEvent.deposited ("w") 100 0 ("t1")] 0)).balance = 100) := by
  have hrun : runCmds (newWallet ("w")) [WalletCmd.deposit 100 0 ("t1")] =
      some { id := "w", balance := 100, version := 1,
             uncommitted := [WEvent.deposited ("w") 100 0 ("t1")] } := by
    norm_num [runCmds, runCmd, WalletAggregate.deposit, newWallet]
  refine ⟨⟨by decide, by decide, by decide,
    claim_C10.2.1 ("BogusEvent") _ (by decide) (by decide) (by decide)⟩, hrun, ?_⟩
  exact claim_C10.2.2.2 ("w") [WalletCmd.deposit 100 0 ("t1")]
    { id := "w", balance := 100, version := 1,
      uncommitted := [WEvent.deposited ("w") 100 0 ("t1")] } ("WalletAggregate") 0 hrun

/-- `TransferSagaRepository.findById`. -/
def sagaFind (sagas : List SagaRow) (id : String) : Option SagaRow :=
  sagas.find? (fun r => r.id == id)

theorem sagaFind_fresh (sagas : List SagaRow) (sagaId : String) (g : SagaRow → SagaRow)
    (r0 : SagaRow) (hfresh : ∀ r ∈ sagas, r.id ≠ sagaId) (hr0 : r0.id = sagaId)
    (hg : (g r0).id = sagaId) :
    sagaFind (sagaUpdate (sagas ++ [r0]) sagaId g) sagaId = some (g r0) := by
  induction sagas with
  | nil =>
    simp only [List.nil_append, sagaUpdate, List.map_cons, List.map_nil, hr0, if_pos rfl]
    simp [sagaFind, List.find?, hg]
  | cons r rest ih =>
    have hr : r.id ≠ sagaId := hfresh r (by simp)
    simp only [List.cons_append, sagaUpdate, List.map_cons] at *
    rw [if_neg hr]
    simp only [sagaFind, List.find?]
    rw [show (r.id == sagaId) = false from beq_eq_false_iff_ne.mpr hr]
    exact ih (fun x hx => hfresh x (by simp [hx]))

theorem sagaUpdate_sagaUpdate (sagas : List SagaRow) (id : String) (g1 g2 : SagaRow → SagaRow)
    (hg1 : ∀ r, (g1 r).id = r.id) :
    sagaUpdate (sagaUpdate sagas id g1) id g2 =
      sagaUpdate sagas id (fun r => g2 (g1 r)) := by
  simp only [sagaUpdate, List.map_map]
  apply List.map_congr_left
  intro r _
  simp only [Function.comp]
  by_cases hr : r.id = id
  · rw [if_pos hr, if_pos (by rw [hg1 r, hr]), if_pos hr]
  · rw [if_neg hr, if_neg hr, if_neg hr]

/-- Claim C3: if the source-wallet debit fails in
`TransferSagaService.execute` — for any reason: invalid amount,
insufficient funds, version conflict or an injected save failure, all of
which surface as `debitSourceWallet` throwing — the saga status is set to
`FAILED` with the reason, `TransferFailed` is published with the reason, a
failure result is returned, and no compensation step runs: nothing beyond
`TransferInitiated` and `TransferFailed` is published, no event is
appended to either wallet event log (the store is unchanged), and hence
both wallets replay to unchanged states. -/
theorem claim_C3 (w : SagaWorld) (fromWalletId toWalletId : String) (amount : ℚ)
    (sagaId : String) (faults : Faults) (txDebit txCredit txRefund : String) (now : Int)
    (e : Err)
    (hfresh : ∀ r ∈ w.sagas, r.id ≠ sagaId)
    (hd : debitSourceWallet w.store sagaId fromWalletId amount faults.debitSave txDebit now =
      .error e) :
    (sagaExecute w fromWalletId toWalletId amount sagaId faults txDebit txCredit txRefund
        now).2 =
      { success := false, sagaId := sagaId,
        message := "Transfer failed: Unable to debit source wallet",
        fromBalance := none, toBalance := none, error := some e.message } ∧
    (sagaExecute w fromWalletId toWalletId amount sagaId faults txDebit txCredit txRefund
        now).1.store = w.store ∧
    (sagaExecute w fromWalletId toWalletId amount sagaId faults txDebit txCredit txRefund
        now).1.published =
      w.published ++
        [.transferInitiated sagaId fromWalletId toWalletId amount now,
         .transferFailed sagaId fromWalletId toWalletId amount e.message now] ∧
    sagaFind (sagaExecute w fromWalletId toWalletId amount sagaId faults txDebit txCredit
        txRefund now).1.sagas sagaId =
      some { id := sagaId, fromWalletId := fromWalletId, toWalletId := toWalletId,
             amount := amount, status := .FAILED, debitTransactionId := none,
             creditTransactionId := none, compensationTransactionId := none,
             errorMessage := some e.message } ∧
    (∀ x, findById (sagaExecute w fromWalletId toWalletId amount sagaId faults txDebit
        txCredit txRefund now).1.store x = findById w.store x) := by
  have hred : sagaExecute w fromWalletId toWalletId amount sagaId faults txDebit txCredit
      txRefund now =
    ({ store := w.store,
       sagas := sagaSetFailedErr (sagaCreate w.sagas sagaId fromWalletId toWalletId amount)
         sagaId e.message,
       published := w.published ++
         [.transferInitiated sagaId fromWalletId toWalletId amount now,
          .transferFailed sagaId fromWalletId toWalletId amount e.message now] },
     { success := false, sagaId := sagaId,
       message := "Transfer failed: Unable to debit source wallet",
       fromBalance := none, toBalance := none, error := some e.message }) := by
    simp only [sagaExecute, hd]
    simp [List.append_assoc]
  rw [hred]
  refine ⟨rfl, rfl, rfl, ?_, fun x => rfl⟩
  simp only [sagaSetFailedErr, sagaCreate]
  rw [sagaFind_fresh _ _ _ _ hfresh rfl rfl]

/-- Claim C2: in `TransferSagaService.execute`, whenever the source debit
has committed and the destination credit then fails, the saga is set to
`COMPENSATING` and `CompensationInitiated` is published, and the
compensation — a deposit of the same amount back to the source wallet
(`compensateSourceWallet`) — is executed.  If the refund succeeds the saga
is set to `FAILED` (carrying the compensation transaction id) and both
`SourceWalletRefunded` and `TransferFailed` are published and a failure
result is returned; if the refund also fails the saga remains in
`COMPENSATING` and the returned result carries the CRITICAL
manual-intervention message. -/
theorem claim_C2 (w : SagaWorld) (fromWalletId toWalletId : String) (amount : ℚ)
    (sagaId : String) (faults : Faults) (txDebit txCredit txRefund : String) (now : Int)
    (store1 : List StoredEvent) (pubDebited : PubEvent) (dtx : String) (fbal : ℚ) (e : Err)
    (hfresh : ∀ r ∈ w.sagas, r.id ≠ sagaId)
    (hd : debitSourceWallet w.store sagaId fromWalletId amount faults.debitSave txDebit now =
      .ok (store1, pubDebited, dtx, fbal))
    (hc : creditDestinationWallet store1 sagaId toWalletId amount faults.creditSave txCredit
      now = .error e) :
    (∀ (store3 : List StoredEvent) (pubRefunded : PubEvent) (ctx : String) (cbal : ℚ),
      compensateSourceWallet store1 sagaId fromWalletId amount faults.refundSave txRefund
          now = .ok (store3, pubRefunded, ctx, cbal) →
      sagaExecute w fromWalletId toWalletId amount sagaId faults txDebit txCredit txRefund
          now =
        ({ store := store3,
           sagas := sagaSetFailed (sagaSetCompensating (sagaSetSourceDebited
             (sagaCreate w.sagas sagaId fromWalletId toWalletId amount) sagaId dtx)
             sagaId e.message) sagaId ctx,
           published := w.published ++
             [.transferInitiated sagaId fromWalletId toWalletId amount now, pubDebited,
              .compensationInitiated sagaId fromWalletId amount e.message now, pubRefunded,
              .transferFailed sagaId fromWalletId toWalletId amount
                ("Credit failed: " ++ e.message ++ ". Funds refunded.") now] },
         { success := false, sagaId := sagaId,
           message := "Transfer failed: Unable to credit destination wallet. Funds refunded.",
           fromBalance := some cbal, toBalance := none, error := some e.message }) ∧
      sagaFind (sagaExecute w fromWalletId toWalletId amount sagaId faults txDebit txCredit
          txRefund now).1.sagas sagaId =
        some { id := sagaId, fromWalletId := fromWalletId, toWalletId := toWalletId,
               amount := amount, status := .FAILED, debitTransactionId := some dtx,
               creditTransactionId := none, compensationTransactionId := some ctx,
               errorMessage := some e.message }) ∧
    (∀ ce : Err,
      compensateSourceWallet store1 sagaId fromWalletId amount faults.refundSave txRefund
          now = .error ce →
      sagaExecute w fromWalletId toWalletId amount sagaId faults txDebit txCredit txRefund
          now =
        ({ store := store1,
           sagas := sagaSetCompensatingErr (sagaSetCompensating (sagaSetSourceDebited
             (sagaCreate w.sagas sagaId fromWalletId toWalletId amount) sagaId dtx)
             sagaId e.message) sagaId ("Compensation failed: " ++ ce.message),
           published := w.published ++
             [.transferInitiated sagaId fromWalletId toWalletId amount now, pubDebited,
              .compensationInitiated sagaId fromWalletId amount e.message now] },
         { success := false, sagaId := sagaId,
           message := "CRITICAL: Transfer failed and compensation failed. Manual intervention required.",
           fromBalance := none, toBalance := none,
           error := some ("Original error: " ++ e.message ++ ". Compensation error: " ++
             ce.message) }) ∧
      sagaFind (sagaExecute w fromWalletId toWalletId amount sagaId faults txDebit txCredit
          txRefund now).1.sagas sagaId =
        some { id := sagaId, fromWalletId := fromWalletId, toWalletId := toWalletId,
               amount := amount, status := .COMPENSATING, debitTransactionId := some dtx,
               creditTransactionId := none, compensationTransactionId := none,
               errorMessage := some ("Compensation failed: " ++ ce.message) }) := by
  constructor
  · intro store3 pubRefunded ctx cbal hcomp
    have hred : sagaExecute w fromWalletId toWalletId amount sagaId faults txDebit txCredit
        txRefund now =
      ({ store := store3,
         sagas := sagaSetFailed (sagaSetCompensating (sagaSetSourceDebited
           (sagaCreate w.sagas sagaId fromWalletId toWalletId amount) sagaId dtx)
           sagaId e.message) sagaId ctx,
         published := w.published ++
           [.transferInitiated sagaId fromWalletId toWalletId amount now, pubDebited,
            .compensationInitiated sagaId fromWalletId amount e.message now, pubRefunded,
            .transferFailed sagaId fromWalletId toWalletId amount
              ("Credit failed: " ++ e.message ++ ". Funds refunded.") now] },
       { success := false, sagaId := sagaId,
         message := "Transfer failed: Unable to credit destination wallet. Funds refunded.",
         fromBalance := some cbal, toBalance := none, error := some e.message }) := by
      simp only [sagaExecute, hd, hc, hcomp]
      simp [List.append_assoc]
    refine ⟨hred, ?_⟩
    rw [hred]
    simp only [sagaSetFailed, sagaSetCompensating, sagaSetSourceDebited, sagaCreate]
    rw [sagaUpdate_sagaUpdate _ _ _ _ (by intro r; rfl),
      sagaUpdate_sagaUpdate _ _ _ _ (by intro r; rfl)]
    rw [sagaFind_fresh _ _ _ _ hfresh rfl rfl]
  · intro ce hcomp
    have hred : sagaExecute w fromWalletId toWalletId amount sagaId faults txDebit txCredit
        txRefund now =
      ({ store := store1,
         sagas := sagaSetCompensatingErr (sagaSetCompensating (sagaSetSourceDebited
           (sagaCreate w.sagas sagaId fromWalletId toWalletId amount) sagaId dtx)
           sagaId e.message) sagaId ("Compensation failed: " ++ ce.message),
         published := w.published ++
           [.transferInitiated sagaId fromWalletId toWalletId amount now, pubDebited,
            .compensationInitiated sagaId fromWalletId amount e.message now] },
       { success := false, sagaId := sagaId,
         message := "CRITICAL: Transfer failed and compensation failed. Manual intervention required.",
         fromBalance := none, toBalance := none,
         error := some ("Original error: " ++ e.message ++ ". Compensation error: " ++
           ce.message) }) := by
      simp only [sagaExecute, hd, hc, hcomp]
      simp [List.append_assoc]
    refine ⟨hred, ?_⟩
    rw [hred]
    simp only [sagaSetCompensatingErr, sagaSetCompensating, sagaSetSourceDebited, sagaCreate]
    rw [sagaUpdate_sagaUpdate _ _ _ _ (by intro r; rfl),
      sagaUpdate_sagaUpdate _ _ _ _ (by intro r; rfl)]
    rw [sagaFind_fresh _ _ _ _ hfresh rfl rfl]

/-- Witness for claim C3: transferring 5 out of an empty wallet makes the
debit fail with insufficient funds; the saga run leaves the (empty) event
log untouched and reports failure. -/
theorem claim_C3_witness :
    debitSourceWallet ([] : List StoredEvent) ("s1") ("wA") 5 false ("td") 0 =
      .error (.insufficientFunds (insufficientMsg 0 5)) ∧
    (sagaExecute { store := [], sagas := [], published := [] } ("wA") ("wB") 5 ("s1")
        { debitSave := false, creditSave := false, refundSave := false }
        ("td") ("tc") ("tr") 0).1.store = [] ∧
    (sagaExecute { store := [], sagas := [], published := [] } ("wA") ("wB") 5 ("s1")
        { debitSave := false, creditSave := false, refundSave := false }
        ("td") ("tc") ("tr") 0).2.success = false := by
  have hf : findById ([] : List StoredEvent) ("wA") = newWallet ("wA") := by
    simp [findById, getEvents, replayStored, newWallet, List.insertionSort]
  have hd : debitSourceWallet ([] : List StoredEvent) ("s1") ("wA") 5 false ("td") 0 =
      .error (.insufficientFunds (insufficientMsg 0 5)) := by
    simp only [debitSourceWallet]
    rw [hf]
    norm_num [WalletAggregate.withdraw, newWallet]
  have h := claim_C3 { store := [], sagas := [], published := [] } ("wA") ("wB") 5 ("s1")
    { debitSave := false, creditSave := false, refundSave := false }
    ("td") ("tc") ("tr") 0 (.insufficientFunds (insufficientMsg 0 5)) (by simp) hd
  exact ⟨hd, h.2.1, by rw [h.1]⟩

/-- One deposited event for the source wallet of the compensation
scenario. -/
def demoEvent : WEvent := WEvent.deposited ("wA") 100 0 ("t0")

/-- A store holding the single deposited event for wallet `wA` at
version 1. -/
def demoStore : List StoredEvent := mkEntities ("wA") ("WalletAggregate") [demoEvent] 0

/-- The store after the saga debited 5 from `wA` (version 2). -/
def demoStore1 : List StoredEvent :=
  demoStore ++ mkEntities ("wA") ("WalletAggregate") [WEvent.withdrawn ("wA") 5 7 ("td")] 1

theorem demo_findById_wA :
    findById demoStore ("wA") =
      { id := "wA", balance := 100, version := 1, uncommitted := [] } := by
  have hga : getEvents demoStore ("wA") = demoStore := by
    simp [getEvents, demoStore, mkEntities, List.insertionSort, List.orderedInsert]
  simp only [findById, hga]
  rw [show demoStore = mkEntities ("wA") ("WalletAggregate") [demoEvent] 0 from rfl,
    replay_mkEntities]
  simp [demoStore, mkEntities, demoEvent, WalletAggregate.replayEvent,
    WalletAggregate.applyMoneyDeposited, newWallet]

theorem demo_debit :
    debitSourceWallet demoStore ("s1") ("wA") 5 false ("td") 7 =
      .ok (demoStore1, .sourceWalletDebited ("s1") ("wA") 5 ("td") 7 95, ("td"), 95) := by
  simp only [debitSourceWallet, demo_findById_wA]
  norm_num [WalletAggregate.withdraw, repoSave, saveEvents, demoStore1, demoStore,
    mkEntities, demoEvent, WEvent.ctorName, WEvent.transactionId]

theorem demo_findById_wB :
    findById demoStore1 ("wB") = newWallet ("wB") := by
  have hga : getEvents demoStore1 ("wB") = [] := by
    simp [getEvents, demoStore1, demoStore, mkEntities, demoEvent, List.insertionSort]
  simp [findById, hga, replayStored, newWallet]

theorem demo_credit :
    creditDestinationWallet demoStore1 ("s1") ("wB") 5 true ("tc") 7 =
      .error (.infra ("database connection error")) := by
  simp only [creditDestinationWallet, demo_findById_wB]
  norm_num [WalletAggregate.deposit, newWallet]

theorem demo_findById_wA2 :
    findById demoStore1 ("wA") =
      { id := "wA", balance := 95, version := 2, uncommitted := [] } := by
  have hga : getEvents demoStore1 ("wA") = demoStore1 := by
    simp [getEvents, demoStore1, demoStore, mkEntities, demoEvent, List.insertionSort,
      List.orderedInsert]
  have hsplit : demoStore1 =
      mkEntities ("wA") ("WalletAggregate") [demoEvent, WEvent.withdrawn ("wA") 5 7 ("td")]
        0 := rfl
  simp only [findById, hga]
  rw [hsplit, replay_mkEntities]
  norm_num [demoStore1, demoStore, mkEntities, demoEvent, WalletAggregate.replayEvent,
    WalletAggregate.applyMoneyDeposited, WalletAggregate.applyMoneyWithdrawn, newWallet]

theorem demo_compensate :
    compensateSourceWallet demoStore1 ("s1") ("wA") 5 false ("tr") 7 =
      .ok (demoStore1 ++ mkEntities ("wA") ("WalletAggregate")
             [WEvent.deposited ("wA") 5 7 ("tr")] 2,
           .sourceWalletRefunded ("s1") ("wA") 5 ("tr") 7 100, ("tr"), 100) := by
  simp only [compensateSourceWallet, demo_findById_wA2]
  norm_num [WalletAggregate.deposit, repoSave, saveEvents, demoStore1, demoStore,
    mkEntities, demoEvent, WEvent.ctorName, WEvent.transactionId]

/-- Witness for claim C2: with one 100-deposit on `wA`, a transfer of 5 to
`wB` whose credit save fails is compensated: the refund deposit succeeds
and the saga ends `FAILED` with the compensation transaction id recorded. -/
theorem claim_C2_witness :
    debitSourceWallet demoStore ("s1") ("wA") 5 false ("td") 7 =
      .ok (demoStore1, .sourceWalletDebited ("s1") ("wA") 5 ("td") 7 95, ("td"), 95) ∧
    creditDestinationWallet demoStore1 ("s1") ("wB") 5 true ("tc") 7 =
      .error (.infra ("database connection error")) ∧
    compensateSourceWallet demoStore1 ("s1") ("wA") 5 false ("tr") 7 =
      .ok (demoStore1 ++ mkEntities ("wA") ("WalletAggregate")
             [WEvent.deposited ("wA") 5 7 ("tr")] 2,
           .sourceWalletRefunded ("s1") ("wA") 5 ("tr") 7 100, ("tr"), 100) ∧
    sagaFind (sagaExecute { store := demoStore, sagas := [], published := [] }
        ("wA") ("wB") 5 ("s1")
        { debitSave := false, creditSave := true, refundSave := false }
        ("td") ("tc") ("tr") 7).1.sagas ("s1") =
      some { id := "s1", fromWalletId := "wA", toWalletId := "wB", amount := 5,
             status := .FAILED, debitTransactionId := some ("td"),
             creditTransactionId := none, compensationTransactionId := some ("tr"),
             errorMessage := some (Err.infra ("database connection error")).message } := by
  have h := claim_C2 { store := demoStore, sagas := [], published := [] }
    ("wA") ("wB") 5 ("s1")
    { debitSave := false, creditSave := true, refundSave := false }
    ("td") ("tc") ("tr") 7 demoStore1
    (.sourceWalletDebited ("s1") ("wA") 5 ("td") 7 95) ("td") 95
    (.infra ("database connection error"))
    (by simp) demo_debit demo_credit
  exact ⟨demo_debit, demo_credit, demo_compensate,
    (h.1 _ _ _ _ demo_compensate).2⟩

/-!
## Well-formed stores

A store is well formed when, for every aggregate, its rows carry versions
1..N in list order — exactly the state of the `event_store` table produced
by the repository protocol (the UNIQUE(aggregate_id, version) constraint
plus gap-free version assignment).
-/

/-- The rows of one aggregate, in insertion order. -/
def walletRows (store : List StoredEvent) (aggId : String) : List StoredEvent :=
  store.filter (fun s => s.aggregateId == aggId)

/-- Well-formedness: each aggregate's rows carry versions `1..N` in list
order. -/
def StoreWF (store : List StoredEvent) : Prop :=
  ∀ aggId, (walletRows store aggId).map (fun s => s.version) =
    List.range' 1 (walletRows store aggId).length

theorem sorted_le_range' : ∀ (n s : Nat), List.Sorted (· ≤ ·) (List.range' s n) := by
  intro n
  induction n with
  | zero => intro s; simp
  | succ n ih =>
    intro s
    rw [List.range'_succ]
    refine List.sorted_cons.mpr ⟨?_, ih (s + 1)⟩
    intro b hb
    have := List.mem_range'_1.mp hb
    omega

theorem getEvents_WF (store : List StoredEvent) (aggId : String) (hWF : StoreWF store) :
    getEvents store aggId = walletRows store aggId := by
  have hsor : List.Sorted (fun a b : StoredEvent => a.version ≤ b.version)
      (walletRows store aggId) := by
    have hs : List.Sorted (· ≤ ·) ((walletRows store aggId).map (fun s => s.version)) := by
      rw [hWF aggId]
      exact sorted_le_range' _ 1
    exact List.pairwise_map.mp hs
  exact hsor.insertionSort_eq

theorem mkEntities_length (aggId aggType : String) (evs : List WEvent) (v : Nat) :
    (mkEntities aggId aggType evs v).length = evs.length := by
  have h := congrArg List.length (mkEntities_versions aggId aggType evs v)
  simpa using h

theorem mkEntities_mem (aggId aggType : String) (evs : List WEvent) :
    ∀ (v : Nat) (x : StoredEvent), x ∈ mkEntities aggId aggType evs v →
      x.aggregateId = aggId ∧ v + 1 ≤ x.version ∧ x.version ≤ v + evs.length := by
  induction evs with
  | nil => intro v x hx; simp [mkEntities] at hx
  | cons e rest ih =>
    intro v x hx
    simp only [mkEntities, List.mem_cons] at hx
    rcases hx with rfl | hx
    · refine ⟨rfl, by simp, ?_⟩
      show v + 1 ≤ v + (e :: rest).length
      simp
    · obtain ⟨h1, h2, h3⟩ := ih (v + 1) x hx
      refine ⟨h1, by omega, ?_⟩
      simp only [List.length_cons]
      omega

theorem walletRows_append (s1 s2 : List StoredEvent) (aggId : String) :
    walletRows (s1 ++ s2) aggId = walletRows s1 aggId ++ walletRows s2 aggId := by
  simp [walletRows]

theorem walletRows_mkEntities_self (aggId aggType : String) (evs : List WEvent) :
    ∀ v, walletRows (mkEntities aggId aggType evs v) aggId =
      mkEntities aggId aggType evs v := by
  induction evs with
  | nil => intro v; rfl
  | cons e rest ih =>
    intro v
    simp only [mkEntities, walletRows, List.filter_cons]
    rw [if_pos (by simp)]
    congr 1
    exact ih (v + 1)

theorem walletRows_mkEntities_ne (aggId aggType : String) (evs : List WEvent)
    (b : String) (hb : aggId ≠ b) :
    ∀ v, walletRows (mkEntities aggId aggType evs v) b = [] := by
  induction evs with
  | nil => intro v; rfl
  | cons e rest ih =>
    intro v
    simp only [mkEntities, walletRows, List.filter_cons]
    rw [if_neg (by simp [hb])]
    exact ih (v + 1)

theorem saveEvents_WF (store : List StoredEvent) (aggId aggType : String)
    (evs : List WEvent) (hWF : StoreWF store) :
    saveEvents store aggId aggType evs ((walletRows store aggId).length) =
      .ok (store ++ mkEntities aggId aggType evs ((walletRows store aggId).length)) := by
  simp only [saveEvents]
  rw [if_neg]
  intro hany
  rw [List.any_eq_true] at hany
  obtain ⟨x, hx, hsx⟩ := hany
  rw [List.any_eq_true] at hsx
  obtain ⟨srow, hsrow, hmatch⟩ := hsx
  rw [Bool.and_eq_true, beq_iff_eq, beq_iff_eq] at hmatch
  obtain ⟨hxa, hxv⟩ := mkEntities_mem aggId aggType evs _ x hx |>.imp id id
  have hsagg : srow.aggregateId = aggId := hmatch.1.trans hxa
  have hsmem : srow ∈ walletRows store aggId := by
    rw [walletRows, List.mem_filter]
    exact ⟨hsrow, by simp [hsagg]⟩
  have hver : srow.version ∈ (walletRows store aggId).map (fun s => s.version) :=
    List.mem_map_of_mem _ hsmem
  rw [hWF aggId] at hver
  have hbound := List.mem_range'_1.mp hver
  have hxbound := (mkEntities_mem aggId aggType evs _ x hx).2.1
  omega

theorem StoreWF_append (store : List StoredEvent) (aggId aggType : String)
    (evs : List WEvent) (hWF : StoreWF store) :
    StoreWF (store ++ mkEntities aggId aggType evs ((walletRows store aggId).length)) := by
  intro b
  rw [walletRows_append]
  by_cases hb : aggId = b
  · subst hb
    rw [walletRows_mkEntities_self]
    rw [List.map_append, hWF aggId, mkEntities_versions, List.length_append,
      mkEntities_length]
    rw [show (walletRows store aggId).length + 1 =
        1 + 1 * (walletRows store aggId).length from by omega, List.range'_append]
    rw [Nat.add_comm]
  · rw [walletRows_mkEntities_ne _ _ _ _ hb, List.append_nil]
    exact hWF b

theorem replayEvent_congr (w1 w2 : WalletAggregate) (e : WEvent) (hid : w1.id = w2.id)
    (hb : w1.balance = w2.balance) :
    (w1.replayEvent e).balance = (w2.replayEvent e).balance := by
  cases e with
  | deposited _ a _ _ =>
    simp [WalletAggregate.replayEvent, WalletAggregate.applyMoneyDeposited, hb]
  | withdrawn _ a _ _ =>
    simp [WalletAggregate.replayEvent, WalletAggregate.applyMoneyWithdrawn, hb]
  | transferred f t a _ _ =>
    simp only [WalletAggregate.replayEvent, WalletAggregate.applyMoneyTransferred, hid]
    by_cases hf : f = w2.id
    · simp [hf, hb]
    · by_cases ht : t = w2.id <;> simp [hf, ht, hb]

theorem getEvents_length_WF (store : List StoredEvent) (aggId : String)
    (hWF : StoreWF store) :
    (getEvents store aggId).length = (walletRows store aggId).length := by
  rw [getEvents_WF store aggId hWF]

theorem findById_after (store : List StoredEvent) (aggId aggType : String) (e : WEvent)
    (hWF : StoreWF store) :
    findById (store ++ mkEntities aggId aggType [e] ((walletRows store aggId).length))
        aggId =
      { id := aggId, balance := ((findById store aggId).replayEvent e).balance,
        version := (walletRows store aggId).length + 1, uncommitted := [] } := by
  have hWF2 := StoreWF_append store aggId aggType [e] hWF
  have hge : getEvents
      (store ++ mkEntities aggId aggType [e] ((walletRows store aggId).length)) aggId =
      walletRows store aggId ++
        mkEntities aggId aggType [e] ((walletRows store aggId).length) := by
    rw [getEvents_WF _ _ hWF2, walletRows_append, walletRows_mkEntities_self]
  have hX : replayStored (newWallet aggId)
      (walletRows store aggId ++
        mkEntities aggId aggType [e] ((walletRows store aggId).length)) =
      (replayStored (newWallet aggId) (walletRows store aggId)).replayEvent e := by
    rw [replayStored_append, replay_mkEntities]
    rfl
  have hcore : replayStored (newWallet aggId) (walletRows store aggId) =
      replayStored (newWallet aggId) (getEvents store aggId) := by
    rw [getEvents_WF store aggId hWF]
  have hb : ((replayStored (newWallet aggId) (getEvents store aggId)).replayEvent e).balance
      = ((findById store aggId).replayEvent e).balance := by
    refine replayEvent_congr _ _ e ?_ ?_ <;> rfl
  have hfr := replayEvent_frame (replayStored (newWallet aggId) (walletRows store aggId)) e
  have hfr2 := replayStored_frame (walletRows store aggId) (newWallet aggId)
  calc findById (store ++ mkEntities aggId aggType [e] ((walletRows store aggId).length))
        aggId
      = { id := (replayStored (newWallet aggId) (walletRows store aggId ++
            mkEntities aggId aggType [e] ((walletRows store aggId).length))).id,
          balance := (replayStored (newWallet aggId) (walletRows store aggId ++
            mkEntities aggId aggType [e] ((walletRows store aggId).length))).balance,
          version := (walletRows store aggId ++
            mkEntities aggId aggType [e] ((walletRows store aggId).length)).length,
          uncommitted := (replayStored (newWallet aggId) (walletRows store aggId ++
            mkEntities aggId aggType [e]
              ((walletRows store aggId).length))).uncommitted } := by
        simp only [findById, hge]
    _ = _ := by
        rw [hX]
        congr 1
        · exact hfr.1.trans (hfr2.1.trans rfl)
        · rw [hcore] at hX ⊢
          exact hb
        · simp [mkEntities_length]
        · exact hfr.2.2.trans (hfr2.2.2.trans rfl)

theorem findById_after_other (store : List StoredEvent) (aggId aggType : String)
    (e : WEvent) (b : String) (hWF : StoreWF store) (hb : aggId ≠ b) :
    findById (store ++ mkEntities aggId aggType [e] ((walletRows store aggId).length)) b =
      findById store b := by
  have hWF2 := StoreWF_append store aggId aggType [e] hWF
  have hge : getEvents
      (store ++ mkEntities aggId aggType [e] ((walletRows store aggId).length)) b =
      getEvents store b := by
    rw [getEvents_WF _ _ hWF2, walletRows_append, walletRows_mkEntities_ne _ _ _ _ hb,
      List.append_nil, getEvents_WF store b hWF]
  simp only [findById, hge]

theorem debit_eval (store : List StoredEvent) (sagaId walletId : String) (amount : ℚ)
    (txD : String) (now : Int) (hWF : StoreWF store) (hpos : 0 < amount)
    (hsuf : amount ≤ (findById store walletId).balance) :
    debitSourceWallet store sagaId walletId amount false txD now =
      .ok (store ++ mkEntities walletId ("WalletAggregate")
             [WEvent.withdrawn walletId amount now txD] ((walletRows store walletId).length),
           .sourceWalletDebited sagaId walletId amount txD now
             ((findById store walletId).balance - amount),
           txD, (findById store walletId).balance - amount) := by
  obtain ⟨hid0, hver0, hunc0⟩ := findById_fields store walletId
  have hgl := getEvents_length_WF store walletId hWF
  have hW0 : findById store walletId =
      { id := walletId, balance := (findById store walletId).balance,
        version := (walletRows store walletId).length, uncommitted := [] } := by
    calc findById store walletId
        = { id := (findById store walletId).id,
            balance := (findById store walletId).balance,
            version := (findById store walletId).version,
            uncommitted := (findById store walletId).uncommitted } := rfl
      _ = _ := by rw [hid0, hver0, hunc0, hgl]
  simp only [debitSourceWallet]
  rw [hW0, WalletAggregate.withdraw, if_neg (by linarith), if_neg (by linarith)]
  simp only [Bool.false_eq_true, if_false, repoSave, List.nil_append, List.isEmpty_cons,
    List.length_cons, List.length_nil, Nat.zero_add, Nat.add_sub_cancel]
  rw [saveEvents_WF store walletId ("WalletAggregate")
    [WEvent.withdrawn walletId amount now txD] hWF]

theorem credit_eval (store : List StoredEvent) (sagaId walletId : String) (amount : ℚ)
    (txC : String) (now : Int) (hWF : StoreWF store) (hpos : 0 < amount) :
    creditDestinationWallet store sagaId walletId amount false txC now =
      .ok (store ++ mkEntities walletId ("WalletAggregate")
             [WEvent.deposited walletId amount now txC] ((walletRows store walletId).length),
           .destinationWalletCredited sagaId walletId amount txC now
             ((findById store walletId).balance + amount),
           txC, (findById store walletId).balance + amount) := by
  obtain ⟨hid0, hver0, hunc0⟩ := findById_fields store walletId
  have hgl := getEvents_length_WF store walletId hWF
  have hW0 : findById store walletId =
      { id := walletId, balance := (findById store walletId).balance,
        version := (walletRows store walletId).length, uncommitted := [] } := by
    calc findById store walletId
        = { id := (findById store walletId).id,
            balance := (findById store walletId).balance,
            version := (findById store walletId).version,
            uncommitted := (findById store walletId).uncommitted } := rfl
      _ = _ := by rw [hid0, hver0, hunc0, hgl]
  simp only [creditDestinationWallet]
  rw [hW0, WalletAggregate.deposit, if_neg (by linarith)]
  simp only [Bool.false_eq_true, if_false, repoSave, List.nil_append, List.isEmpty_cons,
    List.length_cons, List.length_nil, Nat.zero_add, Nat.add_sub_cancel]
  rw [saveEvents_WF store walletId ("WalletAggregate")
    [WEvent.deposited walletId amount now txC] hWF]

/-- Claim C7: a self-transfer (`from = to`) with sufficient balance
completes; its debit and credit touch the same aggregate, so exactly two
events (one withdrawal, then one deposit) are appended to that wallet's
event log, and replaying the log (`findById`, the only way any reader
reconstructs the wallet) yields a balance equal to the initial balance. -/
theorem claim_C7 (w : SagaWorld) (walletId sagaId : String) (amount : ℚ)
    (txD txC txR : String) (now : Int)
    (hWF : StoreWF w.store) (hpos : 0 < amount)
    (hsuf : amount ≤ (findById w.store walletId).balance) :
    (sagaExecute w walletId walletId amount sagaId
        { debitSave := false, creditSave := false, refundSave := false }
        txD txC txR now).2.success = true ∧
    (sagaExecute w walletId walletId amount sagaId
        { debitSave := false, creditSave := false, refundSave := false }
        txD txC txR now).1.store =
      w.store
        ++ mkEntities walletId ("WalletAggregate")
             [WEvent.withdrawn walletId amount now txD]
             ((getEvents w.store walletId).length)
        ++ mkEntities walletId ("WalletAggregate")
             [WEvent.deposited walletId amount now txC]
             ((getEvents w.store walletId).length + 1) ∧
    (getEvents (sagaExecute w walletId walletId amount sagaId
        { debitSave := false, creditSave := false, refundSave := false }
        txD txC txR now).1.store walletId).length =
      (getEvents w.store walletId).length + 2 ∧
    (findById (sagaExecute w walletId walletId amount sagaId
        { debitSave := false, creditSave := false, refundSave := false }
        txD txC txR now).1.store walletId).balance =
      (findById w.store walletId).balance := by
  have hgl := getEvents_length_WF w.store walletId hWF
  have hd := debit_eval w.store sagaId walletId amount txD now hWF hpos hsuf
  have hWF1 := StoreWF_append w.store walletId ("WalletAggregate")
    [WEvent.withdrawn walletId amount now txD] hWF
  have hfa := findById_after w.store walletId ("WalletAggregate")
    (WEvent.withdrawn walletId amount now txD) hWF
  have hbal1 : (findById (w.store ++ mkEntities walletId ("WalletAggregate")
      [WEvent.withdrawn walletId amount now txD] ((walletRows w.store walletId).length))
      walletId).balance = (findById w.store walletId).balance - amount := by
    rw [hfa]
    rfl
  have hwr1 : (walletRows (w.store ++ mkEntities walletId ("WalletAggregate")
      [WEvent.withdrawn walletId amount now txD] ((walletRows w.store walletId).length))
      walletId).length = (walletRows w.store walletId).length + 1 := by
    rw [walletRows_append, walletRows_mkEntities_self, List.length_append,
      mkEntities_length]
    rfl
  have hc := credit_eval (w.store ++ mkEntities walletId ("WalletAggregate")
    [WEvent.withdrawn walletId amount now txD] ((walletRows w.store walletId).length))
    sagaId walletId amount txC now hWF1 hpos
  rw [hwr1, hbal1] at hc
  have hWF2 : StoreWF ((w.store ++ mkEntities walletId ("WalletAggregate")
      [WEvent.withdrawn walletId amount now txD] ((walletRows w.store walletId).length))
      ++ mkEntities walletId ("WalletAggregate")
        [WEvent.deposited walletId amount now txC]
        ((walletRows w.store walletId).length + 1)) := by
    have h := StoreWF_append (w.store ++ mkEntities walletId ("WalletAggregate")
      [WEvent.withdrawn walletId amount now txD] ((walletRows w.store walletId).length))
      walletId ("WalletAggregate") [WEvent.deposited walletId amount now txC] hWF1
    rwa [hwr1] at h
  have hfa2 := findById_after (w.store ++ mkEntities walletId ("WalletAggregate")
    [WEvent.withdrawn walletId amount now txD] ((walletRows w.store walletId).length))
    walletId ("WalletAggregate") (WEvent.deposited walletId amount now txC) hWF1
  rw [hwr1] at hfa2
  have hbal2 : (findById ((w.store ++ mkEntities walletId ("WalletAggregate")
      [WEvent.withdrawn walletId amount now txD] ((walletRows w.store walletId).length))
      ++ mkEntities walletId ("WalletAggregate")
        [WEvent.deposited walletId amount now txC]
        ((walletRows w.store walletId).length + 1)) walletId).balance =
      (findById w.store walletId).balance := by
    rw [hfa2]
    show ((findById (w.store ++ mkEntities walletId ("WalletAggregate")
      [WEvent.withdrawn walletId amount now txD] ((walletRows w.store walletId).length))
      walletId).replayEvent (WEvent.deposited walletId amount now txC)).balance = _
    rw [show ∀ (x : WalletAggregate),
        (x.replayEvent (WEvent.deposited walletId amount now txC)).balance =
          x.balance + amount from fun x => rfl]
    rw [hbal1]
    ring
  have hred : sagaExecute w walletId walletId amount sagaId
      { debitSave := false, creditSave := false, refundSave := false }
      txD txC txR now =
    ({ store := (w.store ++ mkEntities walletId ("WalletAggregate")
         [WEvent.withdrawn walletId amount now txD] ((walletRows w.store walletId).length))
         ++ mkEntities walletId ("WalletAggregate")
           [WEvent.deposited walletId amount now txC]
           ((walletRows w.store walletId).length + 1),
       sagas := sagaSetCompleted (sagaSetSourceDebited
         (sagaCreate w.sagas sagaId walletId walletId amount) sagaId txD) sagaId txC,
       published := w.published ++
         [.transferInitiated sagaId walletId walletId amount now,
          .sourceWalletDebited sagaId walletId amount txD now
            ((findById w.store walletId).balance - amount),
          .destinationWalletCredited sagaId walletId amount txC now
            ((findById w.store walletId).balance - amount + amount),
          .transferCompleted sagaId walletId walletId amount now
            ((findById w.store walletId).balance - amount)
            ((findById w.store walletId).balance - amount + amount)] },
     { success := true, sagaId := sagaId,
       message := transferredMsg amount walletId walletId,
       fromBalance := some ((findById w.store walletId).balance - amount),
       toBalance := some ((findById w.store walletId).balance - amount + amount),
       error := none }) := by
    simp only [sagaExecute, hd, hc]
    simp [List.append_assoc]
  rw [hred, hgl]
  refine ⟨rfl, rfl, ?_, hbal2⟩
  rw [getEvents_length_WF _ walletId hWF2, walletRows_append, walletRows_append,
    walletRows_mkEntities_self, walletRows_mkEntities_self, List.length_append,
    List.length_append, mkEntities_length, mkEntities_length]
  rfl

theorem demo_WF : StoreWF demoStore := by
  intro b
  by_cases hb : ("wA" : String) = b
  · subst hb
    simp [StoreWF, walletRows, demoStore, mkEntities, demoEvent, List.range]
  · simp [StoreWF, walletRows, demoStore, mkEntities, demoEvent, hb,
      fun h => hb (Eq.symm h)]

theorem claim_C7_witness :
    StoreWF demoStore ∧ (0 : ℚ) < 5 ∧
    (5 : ℚ) ≤ (findById demoStore ("wA")).balance ∧
    ((sagaExecute { store := demoStore, sagas := [], published := [] }
        ("wA") ("wA") 5 ("s7")
        { debitSave := false, creditSave := false, refundSave := false }
        ("td") ("tc") ("tr") 7).2.success = true ∧
      (getEvents (sagaExecute { store := demoStore, sagas := [], published := [] }
        ("wA") ("wA") 5 ("s7")
        { debitSave := false, creditSave := false, refundSave := false }
        ("td") ("tc") ("tr") 7).1.store ("wA")).length =
        (getEvents demoStore ("wA")).length + 2 ∧
      (findById (sagaExecute { store := demoStore, sagas := [], published := [] }
        ("wA") ("wA") 5 ("s7")
        { debitSave := false, creditSave := false, refundSave := false }
        ("td") ("tc") ("tr") 7).1.store ("wA")).balance =
        (findById demoStore ("wA")).balance) := by
  have hWF : StoreWF demoStore := demo_WF
  have hpos : (0 : ℚ) < 5 := by norm_num
  have hsuf : (5 : ℚ) ≤ (findById demoStore ("wA")).balance := by
    rw [demo_findById_wA]
    norm_num
  have h := claim_C7 { store := demoStore, sagas := [], published := [] }
    ("wA") ("s7") 5 ("td") ("tc") ("tr") 7 hWF hpos hsuf
  exact ⟨hWF, hpos, hsuf, h.1, h.2.2.1, h.2.2.2⟩

end WalletProof
